import Mathlib

set_option autoImplicit false

/-- Token kinds of the ABC external scanner, mirroring the `TokenType` enum of
src/tree-sitter-abc/src/scanner.h (84 kinds, in the same order). -/
inductive TokenType where
  | TT_ACCIDENTAL
  | TT_NOTE_LETTER
  | TT_OCTAVE
  | TT_REST
  | TT_TIE
  | TT_DECORATION
  | TT_SLUR
  | TT_BARLINE
  | TT_RHY_NUMER
  | TT_RHY_DENOM
  | TT_RHY_SEP
  | TT_RHY_BRKN
  | TT_TUPLET_LPAREN
  | TT_TUPLET_P
  | TT_TUPLET_COLON
  | TT_TUPLET_Q
  | TT_TUPLET_R
  | TT_REPEAT_NUMBER
  | TT_REPEAT_COMMA
  | TT_REPEAT_DASH
  | TT_REPEAT_X
  | TT_CHRD_LEFT_BRKT
  | TT_CHRD_RIGHT_BRKT
  | TT_GRC_GRP_LEFT_BRACE
  | TT_GRC_GRP_RGHT_BRACE
  | TT_GRC_GRP_SLSH
  | TT_INLN_FLD_LFT_BRKT
  | TT_INLN_FLD_RGT_BRKT
  | TT_EQL
  | TT_SLASH
  | TT_MINUS
  | TT_PLUS
  | TT_LPAREN
  | TT_RPAREN
  | TT_LBRACE
  | TT_RBRACE
  | TT_LBRACKET
  | TT_RBRACKET
  | TT_PIPE
  | TT_ANNOTATION
  | TT_INF_HDR
  | TT_INFO_STR
  | TT_INF_CTND
  | TT_VOICE
  | TT_VOICE_OVRLAY
  | TT_LINE_CONT
  | TT_SYMBOL
  | TT_USER_SY
  | TT_USER_SY_HDR
  | TT_USER_SY_INVOCATION
  | TT_MACRO_HDR
  | TT_MACRO_STR
  | TT_MACRO_INVOCATION
  | TT_MACRO_VAR
  | TT_LY_HDR
  | TT_LY_TXT
  | TT_LY_UNDR
  | TT_LY_HYPH
  | TT_LY_SECT_HDR
  | TT_LY_SPS
  | TT_LY_STAR
  | TT_SY_HDR
  | TT_SY_STAR
  | TT_SY_TXT
  | TT_STYLESHEET_DIRECTIVE
  | TT_MEASUREMENT_UNIT
  | TT_AMPERSAND
  | TT_SYSTEM_BREAK
  | TT_BCKTCK_SPC
  | TT_Y_SPC
  | TT_SPECIAL_LITERAL
  | TT_IDENTIFIER
  | TT_NUMBER
  | TT_RESERVED_CHAR
  | TT_ESCAPED_CHAR
  | TT_CHORD_SYMBOL
  | TT_DISCARD
  | TT_COMMENT
  | TT_WS
  | TT_EOL
  | TT_FREE_TXT
  | TT_SCT_BRK
  | TT_INVALID
  | TT_EOF
  deriving DecidableEq

open TokenType

/-- Persistent scanner state, mirroring `ScannerState` in scanner.c
(`in_tune_body`, `in_text_block`, and a `uint16_t` line counter modelled as a
natural number kept below 2^16). -/
structure ScannerState where
  in_tune_body : Bool
  in_text_block : Bool
  line_number : Nat
  deriving DecidableEq

/-- Embeds `tree_sitter_abc_external_scanner_create`: zero-initialized state
with `line_number = 1`. -/
def scanner_create : ScannerState :=
  { in_tune_body := false, in_text_block := false, line_number := 1 }

/-- The `state->line_number++` of scanner.c: a `uint16_t` increment, so it wraps
modulo 2^16. -/
def ScannerState.incLine (s : ScannerState) : ScannerState :=
  { s with line_number := (s.line_number + 1) % 65536 }

/-- Embeds `tree_sitter_abc_external_scanner_serialize`: the fixed 4-byte
layout (flag byte, flag byte, line-number high byte, line-number low byte).
The C function writes into a caller buffer and returns 4; here the 4 written
bytes are returned as a list. -/
def scanner_serialize (s : ScannerState) : List Nat :=
  [if s.in_tune_body then 1 else 0,
   if s.in_text_block then 1 else 0,
   s.line_number / 256 % 256,
   s.line_number % 256]

/-- Embeds `tree_sitter_abc_external_scanner_deserialize`: ignores the buffer
when `length < 4`, otherwise reconstructs all three fields from the first four
bytes (the `% 256` mirrors the C `(unsigned char)` reads of `char` data). -/
def scanner_deserialize (s : ScannerState) (buffer : List Nat) (length : Nat) :
    ScannerState :=
  if 4 ≤ length then
    { in_tune_body := buffer.getD 0 0 % 256 != 0,
      in_text_block := buffer.getD 1 0 % 256 != 0,
      line_number := buffer.getD 2 0 % 256 * 256 + buffer.getD 3 0 % 256 }
  else s

/-- The TreeSitter lexer cursor, shallowly embedded. `input` is the remaining
unread text; `pos` counts characters advanced so far; `markedEnd` is the
position fixed by the last `mark_end`; `markEndCalls` and `emits` count the
`mark_end` and `EMIT` operations of one scan call; `resultSymbol` is the
lexer's `result_symbol` field. -/
structure Lexer where
  input : List Char
  pos : Nat
  markedEnd : Nat
  markEndCalls : Nat
  emits : Nat
  resultSymbol : Option TokenType
  deriving DecidableEq

/-- A fresh cursor over the given text, as at the start of a scan session. -/
def initLexer (cs : List Char) : Lexer :=
  { input := cs, pos := 0, markedEnd := 0, markEndCalls := 0, emits := 0,
    resultSymbol := none }

/-- The `lexer->advance(lexer, false)` operation: consume one character. -/
def Lexer.advance (l : Lexer) : Lexer :=
  { l with input := l.input.tail, pos := l.pos + 1 }

/-- Consume `n` characters in sequence. -/
def Lexer.advanceN : Lexer → Nat → Lexer
  | l, 0 => l
  | l, n + 1 => l.advance.advanceN n

/-- A `while (p(PEEK)) ADVANCE();` loop: consume the maximal matching run. -/
def Lexer.advanceWhile (l : Lexer) (p : Char → Bool) : Lexer :=
  l.advanceN (l.input.takeWhile p).length

/-- The `lexer->mark_end(lexer)` operation. -/
def Lexer.markEnd (l : Lexer) : Lexer :=
  { l with markedEnd := l.pos, markEndCalls := l.markEndCalls + 1 }

/-- The `EMIT(t)` macro: set `result_symbol` (and count the emission). -/
def Lexer.emitTok (l : Lexer) (t : TokenType) : Lexer :=
  { l with resultSymbol := some t, emits := l.emits + 1 }

/-- The `lexer->eof(lexer)` test. -/
def Lexer.atEnd (l : Lexer) : Bool :=
  l.input.isEmpty

/-- A guard `p(PEEK)`: false at end of input (where the C lookahead is 0 and
none of the scanner's character classes contain it). -/
def Lexer.peeksat (l : Lexer) (p : Char → Bool) : Bool :=
  match l.input.head? with
  | none => false
  | some c => p c

/-- The apostrophe character (octave marker). -/
def apos : Char := Char.ofNat 39

/-- The backtick character (spacer). -/
def btick : Char := Char.ofNat 96

/-- The left-brace character. -/
def braceL : Char := Char.ofNat 123

/-- The right-brace character. -/
def braceR : Char := Char.ofNat 125

/-- Modelled from the spec: the character classifier `isWhitespace` of §4.1.
Its body is not under src/; the class is the documented pattern of
`scan_whitespace` in scanner.c, `[ \t]+`. -/
def is_ws_char (c : Char) : Bool :=
  c = ' ' ∨ c = '\t'

/-- Modelled from the spec: the classifier `isNoteLetter` of §4.1; class
`[a-gA-G]` per the `scan_note_letter` doc of scanner.c. -/
def is_note_letter (c : Char) : Bool :=
  ('a' ≤ c ∧ c ≤ 'g') ∨ ('A' ≤ c ∧ c ≤ 'G')

/-- Modelled from the spec: the classifier `isDigit` of §4.1; class `[0-9]`. -/
def is_digit (c : Char) : Bool :=
  '0' ≤ c ∧ c ≤ '9'

/-- Modelled from the spec: the classifier `isOctaveMarker` of §4.1; class
`[',]` per the `scan_octave` doc of scanner.c. -/
def is_octave_char (c : Char) : Bool :=
  c = apos ∨ c = ','

/-- Modelled from the spec: the classifier `isRestLetter` of §4.1; class
`[zZxX]` per the `scan_rest` doc of scanner.c. -/
def is_rest_char (c : Char) : Bool :=
  c = 'z' ∨ c = 'Z' ∨ c = 'x' ∨ c = 'X'

/-- Modelled from the spec: the classifier `isDecorationChar` of §4.1; class
`[.~HLMOPRSTuv]` per the `scan_decoration` doc of scanner.c. -/
def is_decoration_char (c : Char) : Bool :=
  c = '.' ∨ c = '~' ∨ c = 'H' ∨ c = 'L' ∨ c = 'M' ∨ c = 'O' ∨ c = 'P' ∨
    c = 'R' ∨ c = 'S' ∨ c = 'T' ∨ c = 'u' ∨ c = 'v'

/-- Modelled from the spec: the classifier `isBrokenRhythmChar` of §4.1; class
`[<>]` per the `scan_broken_rhythm` doc of scanner.c. -/
def is_broken_rhythm_char (c : Char) : Bool :=
  c = '<' ∨ c = '>'

/-- Modelled from the spec: the classifier `isAlpha` of §4.1; class
`[a-zA-Z]` (info headers are "a single letter"). -/
def is_alpha (c : Char) : Bool :=
  ('a' ≤ c ∧ c ≤ 'z') ∨ ('A' ≤ c ∧ c ≤ 'Z')

/-- Modelled from the spec: the classifier `isIdentifierStart` of §4.1; class
`[a-zA-Z_]` per the `scan_identifier` doc of scanner.c. -/
def is_identifier_start (c : Char) : Bool :=
  is_alpha c ∨ c = '_'

/-- Modelled from the spec: the classifier `isIdentifierContinue` of §4.1;
class `[a-zA-Z0-9_-]` per the `scan_identifier` doc of scanner.c. -/
def is_identifier_char (c : Char) : Bool :=
  is_alpha c ∨ is_digit c ∨ c = '_' ∨ c = '-'

/-- Characters that terminate a scan-to-end-of-line loop. -/
def is_line_break (c : Char) : Bool :=
  c = '\n' ∨ c = '\r'

/-- Embeds `scan_whitespace` of scanner.c. -/
def scan_whitespace (l : Lexer) : Bool × Lexer :=
  if ¬ l.peeksat is_ws_char then (false, l)
  else (true, ((l.advanceWhile is_ws_char).markEnd).emitTok TT_WS)

/-- Embeds `scan_percent_token` of scanner.c: comments `%` and stylesheet
directives `%%` share the consumed leading percent. -/
def scan_percent_token (vs : TokenType → Bool) (l : Lexer) : Bool × Lexer :=
  if ¬ (l.input.head? = some '%') then (false, l)
  else
    let l1 := l.advance
    if l1.input.head? = some '%' then
      let l2 := (l1.advance.advanceWhile fun c => ¬ is_line_break c).markEnd
      if vs TT_STYLESHEET_DIRECTIVE then (true, l2.emitTok TT_STYLESHEET_DIRECTIVE)
      else (false, l2)
    else
      let l2 := (l1.advanceWhile fun c => ¬ is_line_break c).markEnd
      if vs TT_COMMENT then (true, l2.emitTok TT_COMMENT)
      else (false, l2)

/-- Embeds `scan_note_letter` of scanner.c. -/
def scan_note_letter (l : Lexer) : Bool × Lexer :=
  if ¬ l.peeksat is_note_letter then (false, l)
  else (true, (l.advance.markEnd).emitTok TT_NOTE_LETTER)

/-- Embeds `scan_accidental` of scanner.c: `^ ^^ ^/ _ __ _/ =`, at most two
characters. -/
def scan_accidental (l : Lexer) : Bool × Lexer :=
  if l.input.head? = some '^' then
    let l1 := l.advance
    let l2 := if l1.input.head? = some '^' ∨ l1.input.head? = some '/' then l1.advance else l1
    (true, (l2.markEnd).emitTok TT_ACCIDENTAL)
  else if l.input.head? = some '_' then
    let l1 := l.advance
    let l2 := if l1.input.head? = some '_' ∨ l1.input.head? = some '/' then l1.advance else l1
    (true, (l2.markEnd).emitTok TT_ACCIDENTAL)
  else if l.input.head? = some '=' then
    (true, (l.advance.markEnd).emitTok TT_ACCIDENTAL)
  else (false, l)

/-- Embeds `scan_octave` of scanner.c: a maximal run of `[',]`. -/
def scan_octave (l : Lexer) : Bool × Lexer :=
  if ¬ l.peeksat is_octave_char then (false, l)
  else (true, ((l.advanceWhile is_octave_char).markEnd).emitTok TT_OCTAVE)

/-- Embeds `scan_rest` of scanner.c. -/
def scan_rest (l : Lexer) : Bool × Lexer :=
  if ¬ l.peeksat is_rest_char then (false, l)
  else (true, (l.advance.markEnd).emitTok TT_REST)

/-- Embeds `scan_tie` of scanner.c. -/
def scan_tie (l : Lexer) : Bool × Lexer :=
  if ¬ (l.input.head? = some '-') then (false, l)
  else (true, (l.advance.markEnd).emitTok TT_TIE)

/-- Embeds `scan_decoration` of scanner.c: a maximal run of `[.~HLMOPRSTuv]`. -/
def scan_decoration (l : Lexer) : Bool × Lexer :=
  if ¬ l.peeksat is_decoration_char then (false, l)
  else (true, ((l.advanceWhile is_decoration_char).markEnd).emitTok TT_DECORATION)

/-- Embeds `scan_slur` of scanner.c. -/
def scan_slur (l : Lexer) : Bool × Lexer :=
  if l.input.head? = some '(' ∨ l.input.head? = some ')' then
    (true, (l.advance.markEnd).emitTok TT_SLUR)
  else (false, l)

/-- Embeds `scan_number` of scanner.c (a digit run emitted as `TT_RHY_NUMER`). -/
def scan_number (l : Lexer) : Bool × Lexer :=
  if ¬ l.peeksat is_digit then (false, l)
  else (true, ((l.advanceWhile is_digit).markEnd).emitTok TT_RHY_NUMER)

/-- Embeds `scan_rhythm_sep` of scanner.c. -/
def scan_rhythm_sep (l : Lexer) : Bool × Lexer :=
  if ¬ (l.input.head? = some '/') then (false, l)
  else (true, (l.advance.markEnd).emitTok TT_RHY_SEP)

/-- Embeds `scan_broken_rhythm` of scanner.c: a maximal run of `[<>]`. -/
def scan_broken_rhythm (l : Lexer) : Bool × Lexer :=
  if ¬ l.peeksat is_broken_rhythm_char then (false, l)
  else (true, ((l.advanceWhile is_broken_rhythm_char).markEnd).emitTok TT_RHY_BRKN)

/-- Embeds `scan_barline` of scanner.c: `| || |] |: |digit : :| :: ::| [|
[|: [digit`; a lone consumed `:` or `[` is a no-match with the character kept
consumed. -/
def scan_barline (l : Lexer) : Bool × Lexer :=
  if l.input.head? = some '|' then
    let l1 := l.advance
    if l1.input.head? = some '|' ∨ l1.input.head? = some ']' ∨ l1.input.head? = some ':' then
      (true, (l1.advance.markEnd).emitTok TT_BARLINE)
    else if l1.peeksat is_digit then
      (true, (l1.advance.markEnd).emitTok TT_BARLINE)
    else
      (true, (l1.markEnd).emitTok TT_BARLINE)
  else if l.input.head? = some ':' then
    let l1 := l.advance
    if l1.input.head? = some '|' ∨ l1.input.head? = some ':' then
      let l2 := l1.advance
      let l3 := if l2.input.head? = some '|' then l2.advance else l2
      (true, (l3.markEnd).emitTok TT_BARLINE)
    else (false, l1)
  else if l.input.head? = some '[' then
    let l1 := l.advance
    if l1.input.head? = some '|' then
      let l2 := l1.advance
      let l3 := if l2.input.head? = some ':' then l2.advance else l2
      (true, (l3.markEnd).emitTok TT_BARLINE)
    else if l1.peeksat is_digit then
      (true, (l1.advance.markEnd).emitTok TT_BARLINE)
    else (false, l1)
  else (false, l)

/-- Embeds `scan_chord_bracket` of scanner.c. -/
def scan_chord_bracket (l : Lexer) : Bool × Lexer :=
  if l.input.head? = some '[' then
    (true, (l.advance.markEnd).emitTok TT_CHRD_LEFT_BRKT)
  else if l.input.head? = some ']' then
    (true, (l.advance.markEnd).emitTok TT_CHRD_RIGHT_BRKT)
  else (false, l)

/-- Embeds `scan_grace_brace` of scanner.c. -/
def scan_grace_brace (l : Lexer) : Bool × Lexer :=
  if l.input.head? = some braceL then
    (true, (l.advance.markEnd).emitTok TT_GRC_GRP_LEFT_BRACE)
  else if l.input.head? = some braceR then
    (true, (l.advance.markEnd).emitTok TT_GRC_GRP_RGHT_BRACE)
  else (false, l)

/-- Length of the annotation-body loop of `scan_annotation` in scanner.c:
characters consumed before the closing quote, a newline, or end of input,
where a backslash escapes (and consumes) the following character unless that
character is a newline. -/
def annotLen : List Char → Nat
  | [] => 0
  | c :: rest =>
    if c = '"' ∨ c = '\n' then 0
    else if c = '\\' then
      match rest with
      | [] => 1
      | c2 :: rest2 => if c2 = '\n' then 1 else 2 + annotLen rest2
    else 1 + annotLen rest

/-- Embeds `scan_annotation` of scanner.c (named `scan_annot` here): a
quote-delimited string with backslash escapes; an unterminated string still
emits over everything consumed. -/
def scan_annot (l : Lexer) : Bool × Lexer :=
  if ¬ (l.input.head? = some '"') then (false, l)
  else
    let l1 := l.advance
    let l2 := l1.advanceN (annotLen l1.input)
    let l3 := if l2.input.head? = some '"' then l2.advance else l2
    (true, (l3.markEnd).emitTok TT_ANNOTATION)

/-- Embeds `scan_symbol` of scanner.c: `!...!` or `+...+`. -/
def scan_symbol (l : Lexer) : Bool × Lexer :=
  if l.input.head? = some '!' then
    let l1 := (l.advance.advanceWhile fun c => ¬ (c = '!' ∨ c = '\n'))
    let l2 := if l1.input.head? = some '!' then l1.advance else l1
    (true, (l2.markEnd).emitTok TT_SYMBOL)
  else if l.input.head? = some '+' then
    let l1 := (l.advance.advanceWhile fun c => ¬ (c = '+' ∨ c = '\n'))
    let l2 := if l1.input.head? = some '+' then l1.advance else l1
    (true, (l2.markEnd).emitTok TT_SYMBOL)
  else (false, l)

/-- Embeds `scan_info_header` of scanner.c: a single letter immediately
followed by a colon; on failure the consumed letter falls back to an
identifier token when that is valid. -/
def scan_info_header (vs : TokenType → Bool) (l : Lexer) : Bool × Lexer :=
  if ¬ l.peeksat is_alpha then (false, l)
  else
    let l0 := l.markEnd
    let l1 := l0.advance
    if l1.input.head? = some ':' then
      (true, (l1.advance.markEnd).emitTok TT_INF_HDR)
    else
      let l2 := l1.markEnd
      if vs TT_IDENTIFIER then (true, l2.emitTok TT_IDENTIFIER)
      else (false, l2)

/-- Embeds `scan_ampersand` of scanner.c. -/
def scan_ampersand (vs : TokenType → Bool) (l : Lexer) : Bool × Lexer :=
  if ¬ (l.input.head? = some '&') then (false, l)
  else
    let l1 := l.advance.markEnd
    if vs TT_VOICE_OVRLAY then (true, l1.emitTok TT_VOICE_OVRLAY)
    else if vs TT_AMPERSAND then (true, l1.emitTok TT_AMPERSAND)
    else (false, l1)

/-- Embeds `scan_system_break` of scanner.c. -/
def scan_system_break (l : Lexer) : Bool × Lexer :=
  if ¬ (l.input.head? = some '$') then (false, l)
  else (true, (l.advance.markEnd).emitTok TT_SYSTEM_BREAK)

/-- Embeds `scan_y_spacer` of scanner.c. -/
def scan_y_spacer (l : Lexer) : Bool × Lexer :=
  if ¬ (l.input.head? = some 'y') then (false, l)
  else (true, (l.advance.markEnd).emitTok TT_Y_SPC)

/-- Embeds `scan_backtick_spacer` of scanner.c. -/
def scan_backtick_spacer (l : Lexer) : Bool × Lexer :=
  if ¬ (l.input.head? = some btick) then (false, l)
  else (true, (l.advance.markEnd).emitTok TT_BCKTCK_SPC)

/-- Embeds `scan_line_continuation` of scanner.c. -/
def scan_line_continuation (l : Lexer) : Bool × Lexer :=
  if ¬ (l.input.head? = some '\\') then (false, l)
  else (true, (l.advance.markEnd).emitTok TT_LINE_CONT)

/-- Embeds `scan_general_number` of scanner.c. -/
def scan_general_number (l : Lexer) : Bool × Lexer :=
  if ¬ l.peeksat is_digit then (false, l)
  else (true, ((l.advanceWhile is_digit).markEnd).emitTok TT_NUMBER)

/-- Embeds `scan_rhythm_denom` of scanner.c. -/
def scan_rhythm_denom (l : Lexer) : Bool × Lexer :=
  if ¬ l.peeksat is_digit then (false, l)
  else (true, ((l.advanceWhile is_digit).markEnd).emitTok TT_RHY_DENOM)

/-- Embeds `scan_tuplet_lparen` of scanner.c: the `(` is consumed
unconditionally; only a following digit completes the token. -/
def scan_tuplet_lparen (l : Lexer) : Bool × Lexer :=
  if ¬ (l.input.head? = some '(') then (false, l)
  else
    let l1 := l.advance
    if l1.peeksat is_digit then (true, (l1.markEnd).emitTok TT_TUPLET_LPAREN)
    else (false, l1.markEnd)

/-- Embeds `scan_tuplet_colon` of scanner.c. -/
def scan_tuplet_colon (l : Lexer) : Bool × Lexer :=
  if ¬ (l.input.head? = some ':') then (false, l)
  else (true, (l.advance.markEnd).emitTok TT_TUPLET_COLON)

/-- Embeds `scan_inline_field_left` of scanner.c. -/
def scan_inline_field_left (l : Lexer) : Bool × Lexer :=
  if ¬ (l.input.head? = some '[') then (false, l)
  else (true, (l.advance.markEnd).emitTok TT_INLN_FLD_LFT_BRKT)

/-- Embeds `scan_inline_field_right` of scanner.c. -/
def scan_inline_field_right (l : Lexer) : Bool × Lexer :=
  if ¬ (l.input.head? = some ']') then (false, l)
  else (true, (l.advance.markEnd).emitTok TT_INLN_FLD_RGT_BRKT)

/-- Embeds `scan_grace_slash` of scanner.c. -/
def scan_grace_slash (l : Lexer) : Bool × Lexer :=
  if ¬ (l.input.head? = some '/') then (false, l)
  else (true, (l.advance.markEnd).emitTok TT_GRC_GRP_SLSH)

/-- Embeds `scan_equals` of scanner.c. -/
def scan_equals (l : Lexer) : Bool × Lexer :=
  if ¬ (l.input.head? = some '=') then (false, l)
  else (true, (l.advance.markEnd).emitTok TT_EQL)

/-- Embeds `scan_slash` of scanner.c. -/
def scan_slash (l : Lexer) : Bool × Lexer :=
  if ¬ (l.input.head? = some '/') then (false, l)
  else (true, (l.advance.markEnd).emitTok TT_SLASH)

/-- Embeds `scan_minus` of scanner.c. -/
def scan_minus (l : Lexer) : Bool × Lexer :=
  if ¬ (l.input.head? = some '-') then (false, l)
  else (true, (l.advance.markEnd).emitTok TT_MINUS)

/-- Embeds `scan_plus` of scanner.c. -/
def scan_plus (l : Lexer) : Bool × Lexer :=
  if ¬ (l.input.head? = some '+') then (false, l)
  else (true, (l.advance.markEnd).emitTok TT_PLUS)

/-- Embeds `scan_lparen` of scanner.c. -/
def scan_lparen (l : Lexer) : Bool × Lexer :=
  if ¬ (l.input.head? = some '(') then (false, l)
  else (true, (l.advance.markEnd).emitTok TT_LPAREN)

/-- Embeds `scan_rparen` of scanner.c. -/
def scan_rparen (l : Lexer) : Bool × Lexer :=
  if ¬ (l.input.head? = some ')') then (false, l)
  else (true, (l.advance.markEnd).emitTok TT_RPAREN)

/-- Embeds `scan_lbrace` of scanner.c. -/
def scan_lbrace (l : Lexer) : Bool × Lexer :=
  if ¬ (l.input.head? = some braceL) then (false, l)
  else (true, (l.advance.markEnd).emitTok TT_LBRACE)

/-- Embeds `scan_rbrace` of scanner.c. -/
def scan_rbrace (l : Lexer) : Bool × Lexer :=
  if ¬ (l.input.head? = some braceR) then (false, l)
  else (true, (l.advance.markEnd).emitTok TT_RBRACE)

/-- Embeds `scan_lbracket` of scanner.c. -/
def scan_lbracket (l : Lexer) : Bool × Lexer :=
  if ¬ (l.input.head? = some '[') then (false, l)
  else (true, (l.advance.markEnd).emitTok TT_LBRACKET)

/-- Embeds `scan_rbracket` of scanner.c. -/
def scan_rbracket (l : Lexer) : Bool × Lexer :=
  if ¬ (l.input.head? = some ']') then (false, l)
  else (true, (l.advance.markEnd).emitTok TT_RBRACKET)

/-- Embeds `scan_pipe` of scanner.c. -/
def scan_pipe (l : Lexer) : Bool × Lexer :=
  if ¬ (l.input.head? = some '|') then (false, l)
  else (true, (l.advance.markEnd).emitTok TT_PIPE)

/-- Embeds `scan_identifier` of scanner.c. -/
def scan_identifier (l : Lexer) : Bool × Lexer :=
  if ¬ l.peeksat is_identifier_start then (false, l)
  else (true, ((l.advance.advanceWhile is_identifier_char).markEnd).emitTok TT_IDENTIFIER)

/-- Embeds `scan_info_string` of scanner.c: consume to end of line, matching
only when at least one character was consumed. -/
def scan_info_string (l : Lexer) : Bool × Lexer :=
  let n := (l.input.takeWhile fun c => ¬ is_line_break c).length
  if n = 0 then (false, l)
  else (true, ((l.advanceN n).markEnd).emitTok TT_INFO_STR)

/-- Embeds `scan_escaped_char` of scanner.c. -/
def scan_escaped_char (l : Lexer) : Bool × Lexer :=
  if ¬ (l.input.head? = some '\\') then (false, l)
  else
    let l1 := l.advance
    let l2 := if l1.peeksat fun c => ¬ is_line_break c then l1.advance else l1
    (true, (l2.markEnd).emitTok TT_ESCAPED_CHAR)

/-- Embeds `scan_chord_symbol` of scanner.c. -/
def scan_chord_symbol (l : Lexer) : Bool × Lexer :=
  if ¬ (l.input.head? = some '"') then (false, l)
  else
    let l1 := (l.advance.advanceWhile fun c => ¬ (c = '"' ∨ c = '\n'))
    let l2 := if l1.input.head? = some '"' then l1.advance else l1
    (true, (l2.markEnd).emitTok TT_CHORD_SYMBOL)

/-- Embeds `scan_lyric_header` of scanner.c: `w:` or `W:` with optional blanks
before the colon. -/
def scan_lyric_header (vs : TokenType → Bool) (l : Lexer) : Bool × Lexer :=
  if ¬ (l.input.head? = some 'w' ∨ l.input.head? = some 'W') then (false, l)
  else
    let isSection := l.input.head? = some 'W'
    let l1 := (l.advance.advanceWhile fun c => c = ' ' ∨ c = '\t')
    if l1.input.head? = some ':' then
      let l2 := l1.advance.markEnd
      if isSection ∧ vs TT_LY_SECT_HDR then (true, l2.emitTok TT_LY_SECT_HDR)
      else if vs TT_LY_HDR then (true, l2.emitTok TT_LY_HDR)
      else (false, l2)
    else (false, l1)

/-- Embeds `scan_lyric_tilde` of scanner.c. -/
def scan_lyric_tilde (l : Lexer) : Bool × Lexer :=
  if ¬ (l.input.head? = some '~') then (false, l)
  else (true, (l.advance.markEnd).emitTok TT_LY_SPS)

/-- Stop set of the lyric-text loop of scanner.c. -/
def is_lyric_stop (c : Char) : Bool :=
  c = ' ' ∨ c = '\t' ∨ c = '-' ∨ c = '_' ∨ c = '*' ∨ c = '~' ∨ c = '|' ∨
    c = '\\' ∨ c = '\n' ∨ c = '\r' ∨ c = '%'

/-- Embeds `scan_lyric_text` of scanner.c. -/
def scan_lyric_text (l : Lexer) : Bool × Lexer :=
  let n := (l.input.takeWhile fun c => ¬ is_lyric_stop c).length
  if n = 0 then (false, l)
  else (true, ((l.advanceN n).markEnd).emitTok TT_LY_TXT)

/-- Embeds `scan_lyric_underscore` of scanner.c. -/
def scan_lyric_underscore (l : Lexer) : Bool × Lexer :=
  if ¬ (l.input.head? = some '_') then (false, l)
  else (true, (l.advance.markEnd).emitTok TT_LY_UNDR)

/-- Embeds `scan_lyric_hyphen` of scanner.c. -/
def scan_lyric_hyphen (l : Lexer) : Bool × Lexer :=
  if ¬ (l.input.head? = some '-') then (false, l)
  else (true, (l.advance.markEnd).emitTok TT_LY_HYPH)

/-- Embeds `scan_lyric_star` of scanner.c. -/
def scan_lyric_star (l : Lexer) : Bool × Lexer :=
  if ¬ (l.input.head? = some '*') then (false, l)
  else (true, (l.advance.markEnd).emitTok TT_LY_STAR)

/-- Embeds `scan_symbol_header` of scanner.c: `s:` with optional blanks. -/
def scan_symbol_header (l : Lexer) : Bool × Lexer :=
  if ¬ (l.input.head? = some 's') then (false, l)
  else
    let l1 := (l.advance.advanceWhile fun c => c = ' ' ∨ c = '\t')
    if l1.input.head? = some ':' then
      (true, (l1.advance.markEnd).emitTok TT_SY_HDR)
    else (false, l1)

/-- Embeds `scan_symbol_star` of scanner.c. -/
def scan_symbol_star (l : Lexer) : Bool × Lexer :=
  if ¬ (l.input.head? = some '*') then (false, l)
  else (true, (l.advance.markEnd).emitTok TT_SY_STAR)

/-- Stop set of the symbol-line text loop of scanner.c. -/
def is_symbol_text_stop (c : Char) : Bool :=
  c = ' ' ∨ c = '\t' ∨ c = '%' ∨ c = '*' ∨ c = '\n' ∨ c = '\r' ∨ c = '|'

/-- Embeds `scan_symbol_text` of scanner.c. -/
def scan_symbol_text (l : Lexer) : Bool × Lexer :=
  let n := (l.input.takeWhile fun c => ¬ is_symbol_text_stop c).length
  if n = 0 then (false, l)
  else (true, ((l.advanceN n).markEnd).emitTok TT_SY_TXT)

/-- Embeds `scan_tuplet_p` of scanner.c. -/
def scan_tuplet_p (l : Lexer) : Bool × Lexer :=
  if ¬ l.peeksat is_digit then (false, l)
  else (true, ((l.advanceWhile is_digit).markEnd).emitTok TT_TUPLET_P)

/-- Embeds `scan_tuplet_q` of scanner.c. -/
def scan_tuplet_q (l : Lexer) : Bool × Lexer :=
  if ¬ l.peeksat is_digit then (false, l)
  else (true, ((l.advanceWhile is_digit).markEnd).emitTok TT_TUPLET_Q)

/-- Embeds `scan_tuplet_r` of scanner.c. -/
def scan_tuplet_r (l : Lexer) : Bool × Lexer :=
  if ¬ l.peeksat is_digit then (false, l)
  else (true, ((l.advanceWhile is_digit).markEnd).emitTok TT_TUPLET_R)

/-- Embeds `scan_repeat_number` of scanner.c: optional leading blanks are
consumed (into the token) before the digit check. -/
def scan_repeat_number (l : Lexer) : Bool × Lexer :=
  let l1 := (l.advanceWhile fun c => c = ' ' ∨ c = '\t')
  if ¬ l1.peeksat is_digit then (false, l1)
  else (true, ((l1.advanceWhile is_digit).markEnd).emitTok TT_REPEAT_NUMBER)

/-- Embeds `scan_repeat_comma` of scanner.c. -/
def scan_repeat_comma (l : Lexer) : Bool × Lexer :=
  if ¬ (l.input.head? = some ',') then (false, l)
  else (true, (l.advance.markEnd).emitTok TT_REPEAT_COMMA)

/-- Embeds `scan_repeat_dash` of scanner.c. -/
def scan_repeat_dash (l : Lexer) : Bool × Lexer :=
  if ¬ (l.input.head? = some '-') then (false, l)
  else (true, (l.advance.markEnd).emitTok TT_REPEAT_DASH)

/-- Embeds `scan_repeat_x` of scanner.c. -/
def scan_repeat_x (l : Lexer) : Bool × Lexer :=
  if ¬ (l.input.head? = some 'x' ∨ l.input.head? = some 'X') then (false, l)
  else (true, (l.advance.markEnd).emitTok TT_REPEAT_X)

/-- Embeds `scan_info_continuation` of scanner.c: `+:` with optional blanks. -/
def scan_info_continuation (l : Lexer) : Bool × Lexer :=
  if ¬ (l.input.head? = some '+') then (false, l)
  else
    let l1 := (l.advance.advanceWhile fun c => c = ' ' ∨ c = '\t')
    if l1.input.head? = some ':' then
      (true, (l1.advance.markEnd).emitTok TT_INF_CTND)
    else (false, l1)

/-- Embeds `scan_voice` of scanner.c. -/
def scan_voice (l : Lexer) : Bool × Lexer :=
  if ¬ (l.input.head? = some '&') then (false, l)
  else (true, (l.advance.markEnd).emitTok TT_VOICE)

/-- Embeds `scan_user_symbol_header` of scanner.c: `U:` with optional blanks. -/
def scan_user_symbol_header (l : Lexer) : Bool × Lexer :=
  if ¬ (l.input.head? = some 'U') then (false, l)
  else
    let l1 := (l.advance.advanceWhile fun c => c = ' ' ∨ c = '\t')
    if l1.input.head? = some ':' then
      (true, (l1.advance.markEnd).emitTok TT_USER_SY_HDR)
    else (false, l1)

/-- Character class `[h-wH-W~]` of `scan_user_symbol` in scanner.c. -/
def is_user_symbol_char (c : Char) : Bool :=
  ('h' ≤ c ∧ c ≤ 'w') ∨ ('H' ≤ c ∧ c ≤ 'W') ∨ c = '~'

/-- Embeds `scan_user_symbol` of scanner.c. -/
def scan_user_symbol (l : Lexer) : Bool × Lexer :=
  if ¬ l.peeksat is_user_symbol_char then (false, l)
  else (true, (l.advance.markEnd).emitTok TT_USER_SY)

/-- Embeds `scan_user_symbol_invocation` of scanner.c. -/
def scan_user_symbol_invocation (l : Lexer) : Bool × Lexer :=
  if ¬ l.peeksat is_user_symbol_char then (false, l)
  else (true, (l.advance.markEnd).emitTok TT_USER_SY_INVOCATION)

/-- Embeds `scan_macro_header` of scanner.c: `m:` with optional blanks. -/
def scan_macro_header (l : Lexer) : Bool × Lexer :=
  if ¬ (l.input.head? = some 'm') then (false, l)
  else
    let l1 := (l.advance.advanceWhile fun c => c = ' ' ∨ c = '\t')
    if l1.input.head? = some ':' then
      (true, (l1.advance.markEnd).emitTok TT_MACRO_HDR)
    else (false, l1)

/-- First-character class of `scan_macro_var` in scanner.c: `[a-xzA-XZ~]`. -/
def is_macro_start (c : Char) : Bool :=
  ('a' ≤ c ∧ c ≤ 'x') ∨ c = 'z' ∨ ('A' ≤ c ∧ c ≤ 'X') ∨ c = 'Z' ∨ c = '~'

/-- Continuation class of `scan_macro_var` in scanner.c: `[a-xzA-XZ0-9~]`. -/
def is_macro_char (c : Char) : Bool :=
  is_macro_start c ∨ is_digit c

/-- Embeds `scan_macro_var` of scanner.c. -/
def scan_macro_var (l : Lexer) : Bool × Lexer :=
  if ¬ l.peeksat is_macro_start then (false, l)
  else (true, ((l.advance.advanceWhile is_macro_char).markEnd).emitTok TT_MACRO_VAR)

/-- Embeds `scan_macro_string` of scanner.c. -/
def scan_macro_string (l : Lexer) : Bool × Lexer :=
  let n := (l.input.takeWhile fun c => ¬ (is_line_break c ∨ c = '%')).length
  if n = 0 then (false, l)
  else (true, ((l.advanceN n).markEnd).emitTok TT_MACRO_STR)

/-- Embeds `scan_macro_invocation` of scanner.c. -/
def scan_macro_invocation (l : Lexer) : Bool × Lexer :=
  if ¬ l.peeksat is_macro_start then (false, l)
  else (true, ((l.advance.advanceWhile is_macro_char).markEnd).emitTok TT_MACRO_INVOCATION)

/-- Delimiters that let `scan_special_literal` of scanner.c accept `C`/`C|`. -/
def is_special_literal_end (c : Char) : Bool :=
  c = ' ' ∨ c = '\t' ∨ c = '\n' ∨ c = '\r' ∨ c = '%' ∨ c = ']'

/-- Embeds `scan_special_literal` of scanner.c: `C` or `C|` followed by a
delimiter or end of input. -/
def scan_special_literal (l : Lexer) : Bool × Lexer :=
  if ¬ (l.input.head? = some 'C') then (false, l)
  else
    let l1 := l.advance
    let l2 := if l1.input.head? = some '|' then l1.advance else l1
    if l2.peeksat is_special_literal_end ∨ l2.atEnd then
      (true, (l2.markEnd).emitTok TT_SPECIAL_LITERAL)
    else (false, l2)

/-- Embeds `scan_measurement_unit` of scanner.c. -/
def scan_measurement_unit (l : Lexer) : Bool × Lexer :=
  if ¬ l.peeksat is_alpha then (false, l)
  else (true, ((l.advanceWhile is_alpha).markEnd).emitTok TT_MEASUREMENT_UNIT)

/-- Reserved-character class of `scan_reserved_char` in scanner.c. -/
def is_reserved_char (c : Char) : Bool :=
  c = '#' ∨ c = ';' ∨ c = '?' ∨ c = '@'

/-- Embeds `scan_reserved_char` of scanner.c. -/
def scan_reserved_char (l : Lexer) : Bool × Lexer :=
  if ¬ l.peeksat is_reserved_char then (false, l)
  else (true, (l.advance.markEnd).emitTok TT_RESERVED_CHAR)

/-- Embeds `scan_section_break` of scanner.c: one `\r?\n` is consumed
unconditionally (incrementing the line counter and marking the EOL boundary);
with `TT_SCT_BRK` valid a second `\r?\n` extends the token to a section
break; otherwise `TT_EOL` is emitted at the first boundary; a bare `\r` not
followed by `\n` is a no-match with the `\r` kept consumed. -/
def scan_section_break (l : Lexer) (s : ScannerState) (vs : TokenType → Bool) :
    Bool × Lexer × ScannerState :=
  if ¬ (l.input.head? = some '\n' ∨ l.input.head? = some '\r') then (false, l, s)
  else
    let l1 := if l.input.head? = some '\r' then l.advance else l
    if ¬ (l1.input.head? = some '\n') then (false, l1, s)
    else
      let l2 := l1.advance.markEnd
      let s2 := s.incLine
      if vs TT_SCT_BRK then
        let l3 := if l2.input.head? = some '\r' then l2.advance else l2
        if l3.input.head? = some '\n' then
          (true, (l3.advance.markEnd).emitTok TT_SCT_BRK, s2.incLine)
        else
          if vs TT_EOL then (true, l3.emitTok TT_EOL, s2) else (false, l3, s2)
      else
        if vs TT_EOL then (true, l2.emitTok TT_EOL, s2) else (false, l2, s2)

/-- Embeds `scan_free_text` of scanner.c. -/
def scan_free_text (l : Lexer) : Bool × Lexer :=
  let n := (l.input.takeWhile fun c => ¬ is_line_break c).length
  if n = 0 then (false, l)
  else (true, ((l.advanceN n).markEnd).emitTok TT_FREE_TXT)

/-- Embeds `scan_invalid` of scanner.c: error recovery consumes exactly one
character. -/
def scan_invalid (l : Lexer) : Bool × Lexer :=
  if l.atEnd then (false, l)
  else (true, (l.advance.markEnd).emitTok TT_INVALID)

/-- One step of the dispatcher's `if (valid && scan_x(lexer)) return true;`
chain: when the gate is open, run the sub-scanner and stop on a match,
otherwise continue with the (possibly advanced) cursor. -/
def attempt (cond : Lexer → Bool) (f k : Lexer → Bool × Lexer) (l : Lexer) :
    Bool × Lexer :=
  if cond l then
    match f l with
    | (true, l1) => (true, l1)
    | (false, l1) => k l1
  else k l

/-- The dispatcher chain of `tree_sitter_abc_external_scanner_scan` after the
newline handling, in the exact source order of scanner.c lines 1331-1516. -/
def scanRest (vs : TokenType → Bool) : Lexer → Bool × Lexer :=
  attempt (fun _ => vs TT_COMMENT || vs TT_STYLESHEET_DIRECTIVE) (scan_percent_token vs) <|
  attempt (fun _ => vs TT_WS) scan_whitespace <|
  attempt (fun _ => vs TT_LINE_CONT) scan_line_continuation <|
  attempt (fun _ => vs TT_ESCAPED_CHAR) scan_escaped_char <|
  attempt (fun l => vs TT_CHORD_SYMBOL && decide (l.input.head? = some '"')) scan_chord_symbol <|
  attempt (fun _ => vs TT_ANNOTATION) scan_annot <|
  attempt (fun _ => vs TT_SYMBOL) scan_symbol <|
  attempt (fun _ => vs TT_SYSTEM_BREAK) scan_system_break <|
  attempt (fun _ => vs TT_BCKTCK_SPC) scan_backtick_spacer <|
  attempt (fun _ => vs TT_BARLINE) scan_barline <|
  attempt (fun _ => vs TT_TUPLET_LPAREN) scan_tuplet_lparen <|
  attempt (fun _ => vs TT_TUPLET_COLON) scan_tuplet_colon <|
  attempt (fun _ => vs TT_ACCIDENTAL) scan_accidental <|
  attempt (fun _ => vs TT_Y_SPC) scan_y_spacer <|
  attempt (fun _ => vs TT_NOTE_LETTER) scan_note_letter <|
  attempt (fun _ => vs TT_OCTAVE) scan_octave <|
  attempt (fun _ => vs TT_REST) scan_rest <|
  attempt (fun _ => vs TT_TIE) scan_tie <|
  attempt (fun _ => vs TT_DECORATION) scan_decoration <|
  attempt (fun _ => vs TT_SLUR) scan_slur <|
  attempt (fun l => vs TT_GRC_GRP_LEFT_BRACE && decide (l.input.head? = some braceL)) scan_grace_brace <|
  attempt (fun l => vs TT_GRC_GRP_RGHT_BRACE && decide (l.input.head? = some braceR)) scan_grace_brace <|
  attempt (fun _ => vs TT_GRC_GRP_SLSH) scan_grace_slash <|
  attempt (fun l => vs TT_INLN_FLD_LFT_BRKT && decide (l.input.head? = some '[')) scan_inline_field_left <|
  attempt (fun l => vs TT_INLN_FLD_RGT_BRKT && decide (l.input.head? = some ']')) scan_inline_field_right <|
  attempt (fun l => vs TT_CHRD_LEFT_BRKT && decide (l.input.head? = some '[')) scan_chord_bracket <|
  attempt (fun l => vs TT_CHRD_RIGHT_BRKT && decide (l.input.head? = some ']')) scan_chord_bracket <|
  attempt (fun l => vs TT_RHY_NUMER && l.peeksat is_digit) scan_number <|
  attempt (fun _ => vs TT_RHY_DENOM) scan_rhythm_denom <|
  attempt (fun _ => vs TT_RHY_SEP) scan_rhythm_sep <|
  attempt (fun _ => vs TT_RHY_BRKN) scan_broken_rhythm <|
  attempt (fun _ => vs TT_LY_HDR || vs TT_LY_SECT_HDR) (scan_lyric_header vs) <|
  attempt (fun _ => vs TT_LY_UNDR) scan_lyric_underscore <|
  attempt (fun _ => vs TT_LY_HYPH) scan_lyric_hyphen <|
  attempt (fun _ => vs TT_LY_STAR) scan_lyric_star <|
  attempt (fun _ => vs TT_LY_SPS) scan_lyric_tilde <|
  attempt (fun _ => vs TT_LY_TXT) scan_lyric_text <|
  attempt (fun _ => vs TT_SY_HDR) scan_symbol_header <|
  attempt (fun _ => vs TT_SY_STAR) scan_symbol_star <|
  attempt (fun _ => vs TT_SY_TXT) scan_symbol_text <|
  attempt (fun _ => vs TT_TUPLET_P) scan_tuplet_p <|
  attempt (fun _ => vs TT_TUPLET_Q) scan_tuplet_q <|
  attempt (fun _ => vs TT_TUPLET_R) scan_tuplet_r <|
  attempt (fun _ => vs TT_REPEAT_NUMBER) scan_repeat_number <|
  attempt (fun _ => vs TT_REPEAT_COMMA) scan_repeat_comma <|
  attempt (fun _ => vs TT_REPEAT_DASH) scan_repeat_dash <|
  attempt (fun _ => vs TT_REPEAT_X) scan_repeat_x <|
  attempt (fun _ => vs TT_INF_CTND) scan_info_continuation <|
  attempt (fun _ => vs TT_USER_SY_HDR) scan_user_symbol_header <|
  attempt (fun _ => vs TT_USER_SY) scan_user_symbol <|
  attempt (fun _ => vs TT_USER_SY_INVOCATION) scan_user_symbol_invocation <|
  attempt (fun _ => vs TT_MACRO_HDR) scan_macro_header <|
  attempt (fun _ => vs TT_MACRO_VAR) scan_macro_var <|
  attempt (fun _ => vs TT_MACRO_STR) scan_macro_string <|
  attempt (fun _ => vs TT_MACRO_INVOCATION) scan_macro_invocation <|
  attempt (fun _ => vs TT_SPECIAL_LITERAL) scan_special_literal <|
  attempt (fun _ => vs TT_INF_HDR || vs TT_IDENTIFIER) (scan_info_header vs) <|
  attempt (fun _ => vs TT_INFO_STR) scan_info_string <|
  attempt (fun _ => vs TT_EQL) scan_equals <|
  attempt (fun _ => vs TT_SLASH) scan_slash <|
  attempt (fun _ => vs TT_MINUS) scan_minus <|
  attempt (fun _ => vs TT_PLUS) scan_plus <|
  attempt (fun _ => vs TT_LPAREN) scan_lparen <|
  attempt (fun _ => vs TT_RPAREN) scan_rparen <|
  attempt (fun _ => vs TT_LBRACE) scan_lbrace <|
  attempt (fun _ => vs TT_RBRACE) scan_rbrace <|
  attempt (fun _ => vs TT_LBRACKET) scan_lbracket <|
  attempt (fun _ => vs TT_RBRACKET) scan_rbracket <|
  attempt (fun _ => vs TT_PIPE) scan_pipe <|
  attempt (fun _ => vs TT_NUMBER) scan_general_number <|
  attempt (fun _ => vs TT_MEASUREMENT_UNIT) scan_measurement_unit <|
  attempt (fun _ => vs TT_VOICE) scan_voice <|
  attempt (fun _ => vs TT_AMPERSAND || vs TT_VOICE_OVRLAY) (scan_ampersand vs) <|
  attempt (fun _ => vs TT_RESERVED_CHAR) scan_reserved_char <|
  attempt (fun _ => vs TT_IDENTIFIER) scan_identifier <|
  attempt (fun _ => vs TT_FREE_TXT) scan_free_text <|
  attempt (fun _ => vs TT_INVALID) scan_invalid <|
  fun l => (false, l)

/-- Embeds `tree_sitter_abc_external_scanner_scan` of scanner.c: the EOF
check, then the newline matcher (the only sub-scanner that touches the
persistent state), then the gated priority chain `scanRest`. -/
def scanner_scan (s : ScannerState) (vs : TokenType → Bool) (l : Lexer) :
    Bool × Lexer × ScannerState :=
  if l.atEnd then
    if vs TT_EOF then (true, l.emitTok TT_EOF, s) else (false, l, s)
  else
    match (if vs TT_SCT_BRK || vs TT_EOL then scan_section_break l s vs
           else (false, l, s)) with
    | (true, l1, s1) => (true, l1, s1)
    | (false, l1, s1) =>
      let r := scanRest vs l1
      (r.1, r.2, s1)

/-- Valid-symbol set holding exactly `TT_SCT_BRK` and `TT_EOL`. -/
def vsBreakEol : TokenType → Bool :=
  fun t => decide (t = TT_SCT_BRK ∨ t = TT_EOL)

/-- Valid-symbol set holding exactly `TT_EOL`. -/
def vsEolOnly : TokenType → Bool :=
  fun t => decide (t = TT_EOL)

/-- Valid-symbol set holding exactly `TT_INVALID`. -/
def vsInvalidOnly : TokenType → Bool :=
  fun t => decide (t = TT_INVALID)

/-- The empty valid-symbol set. -/
def vsNone : TokenType → Bool :=
  fun _ => false

/-- A sub-scanner emits exactly one token when it matches and none when it
does not (the property behind "at most one committed token per call"). -/
def EmitsOnce (f : Lexer → Bool × Lexer) : Prop :=
  ∀ l, ((f l).2).emits = l.emits + (if (f l).1 then 1 else 0)

@[simp] theorem Lexer.advance_emits (l : Lexer) : l.advance.emits = l.emits := rfl

@[simp] theorem Lexer.advance_markEndCalls (l : Lexer) : l.advance.markEndCalls = l.markEndCalls := rfl

@[simp] theorem Lexer.advance_resultSymbol (l : Lexer) : l.advance.resultSymbol = l.resultSymbol := rfl

@[simp] theorem Lexer.advance_input (l : Lexer) : l.advance.input = l.input.tail := rfl

@[simp] theorem Lexer.advance_pos (l : Lexer) : l.advance.pos = l.pos + 1 := rfl

@[simp] theorem Lexer.advanceN_emits (l : Lexer) (n : Nat) : (l.advanceN n).emits = l.emits := by
  induction n generalizing l with
  | zero => rfl
  | succ k ih => simp [Lexer.advanceN, ih]

@[simp] theorem Lexer.advanceN_markEndCalls (l : Lexer) (n : Nat) :
    (l.advanceN n).markEndCalls = l.markEndCalls := by
  induction n generalizing l with
  | zero => rfl
  | succ k ih => simp [Lexer.advanceN, ih]

@[simp] theorem Lexer.advanceN_resultSymbol (l : Lexer) (n : Nat) :
    (l.advanceN n).resultSymbol = l.resultSymbol := by
  induction n generalizing l with
  | zero => rfl
  | succ k ih => simp [Lexer.advanceN, ih]

@[simp] theorem Lexer.advanceN_input (l : Lexer) (n : Nat) :
    (l.advanceN n).input = l.input.drop n := by
  induction n generalizing l with
  | zero => rfl
  | succ k ih => simp [Lexer.advanceN, ih, List.drop_succ_cons]

@[simp] theorem Lexer.advanceN_pos (l : Lexer) (n : Nat) : (l.advanceN n).pos = l.pos + n := by
  induction n generalizing l with
  | zero => rfl
  | succ k ih => simp [Lexer.advanceN, ih]; omega

@[simp] theorem Lexer.advanceWhile_emits (l : Lexer) (p : Char → Bool) :
    (l.advanceWhile p).emits = l.emits := by
  simp [Lexer.advanceWhile]

@[simp] theorem Lexer.advanceWhile_markEndCalls (l : Lexer) (p : Char → Bool) :
    (l.advanceWhile p).markEndCalls = l.markEndCalls := by
  simp [Lexer.advanceWhile]

@[simp] theorem Lexer.advanceWhile_resultSymbol (l : Lexer) (p : Char → Bool) :
    (l.advanceWhile p).resultSymbol = l.resultSymbol := by
  simp [Lexer.advanceWhile]

@[simp] theorem Lexer.markEnd_emits (l : Lexer) : l.markEnd.emits = l.emits := rfl

@[simp] theorem Lexer.markEnd_input (l : Lexer) : l.markEnd.input = l.input := rfl

@[simp] theorem Lexer.markEnd_pos (l : Lexer) : l.markEnd.pos = l.pos := rfl

@[simp] theorem Lexer.markEnd_resultSymbol (l : Lexer) : l.markEnd.resultSymbol = l.resultSymbol := rfl

@[simp] theorem Lexer.markEnd_markedEnd (l : Lexer) : l.markEnd.markedEnd = l.pos := rfl

@[simp] theorem Lexer.markEnd_markEndCalls (l : Lexer) : l.markEnd.markEndCalls = l.markEndCalls + 1 := rfl

@[simp] theorem Lexer.emitTok_emits (l : Lexer) (t : TokenType) : (l.emitTok t).emits = l.emits + 1 := rfl

@[simp] theorem Lexer.emitTok_input (l : Lexer) (t : TokenType) : (l.emitTok t).input = l.input := rfl

@[simp] theorem Lexer.emitTok_pos (l : Lexer) (t : TokenType) : (l.emitTok t).pos = l.pos := rfl

@[simp] theorem Lexer.emitTok_markedEnd (l : Lexer) (t : TokenType) : (l.emitTok t).markedEnd = l.markedEnd := rfl

@[simp] theorem Lexer.emitTok_markEndCalls (l : Lexer) (t : TokenType) :
    (l.emitTok t).markEndCalls = l.markEndCalls := rfl

@[simp] theorem Lexer.emitTok_resultSymbol (l : Lexer) (t : TokenType) :
    (l.emitTok t).resultSymbol = some t := rfl

/-- C4: for every reachable scanner state (any flags, any line number below
2^16), deserializing the 4 bytes produced by serialize restores the state
exactly, whatever state the deserializing side held before. -/
theorem serialize_roundtrip (s s2 : ScannerState) (h : s.line_number < 65536) :
    scanner_deserialize s2 (scanner_serialize s) 4 = s := by
  obtain ⟨tb, xb, ln⟩ := s
  simp only at h
  cases tb <;> cases xb <;>
    simp [scanner_serialize, scanner_deserialize, ScannerState.mk.injEq] <;> omega

/-- Witness for C4 at a concrete state with a two-byte line number. -/
theorem serialize_roundtrip_witness :
    (ScannerState.mk true false 515).line_number < 65536 ∧
    scanner_deserialize scanner_create (scanner_serialize ⟨true, false, 515⟩) 4 =
      ⟨true, false, 515⟩ :=
  ⟨by decide, serialize_roundtrip ⟨true, false, 515⟩ scanner_create (by decide)⟩

/-- C9: deserialize with a buffer shorter than 4 bytes leaves every field of
the state unchanged; with at least 4 bytes the result is determined by the
first 4 bytes alone (independent of the prior state and of any later
bytes). -/
theorem deserialize_frame (s : ScannerState) (buffer : List Nat) :
    (buffer.length < 4 → scanner_deserialize s buffer buffer.length = s) ∧
    (4 ≤ buffer.length → ∀ s2 : ScannerState,
      scanner_deserialize s buffer buffer.length =
        scanner_deserialize s2 (buffer.take 4) 4) := by
  constructor
  · intro h
    simp [scanner_deserialize]
    omega
  · intro h s2
    match buffer, h with
    | b0 :: b1 :: b2 :: b3 :: rest, _ =>
      simp [scanner_deserialize]

/-- Witness for C9: a 3-byte buffer is ignored; a 5-byte buffer acts through
its first 4 bytes only. -/
theorem deserialize_frame_witness :
    ([1, 2, 3] : List Nat).length < 4 ∧
    scanner_deserialize scanner_create [1, 2, 3] ([1, 2, 3] : List Nat).length = scanner_create ∧
    4 ≤ ([1, 0, 1, 2, 9] : List Nat).length ∧
    scanner_deserialize scanner_create [1, 0, 1, 2, 9] ([1, 0, 1, 2, 9] : List Nat).length =
      scanner_deserialize ⟨true, true, 7⟩ ([1, 0, 1, 2, 9].take 4) 4 :=
  ⟨by decide, (deserialize_frame scanner_create [1, 2, 3]).1 (by decide), by decide,
    (deserialize_frame scanner_create [1, 0, 1, 2, 9]).2 (by decide) ⟨true, true, 7⟩⟩

/-- C2: the barline matcher consumes exactly the documented number of
characters for each barline shape, and a lone consumed `:` or `[` is a
no-match with exactly one character consumed. -/
theorem scan_barline_family :
    ((scan_barline (initLexer ['|'])).1 = true ∧
      (scan_barline (initLexer ['|'])).2.resultSymbol = some TT_BARLINE ∧
      (scan_barline (initLexer ['|'])).2.pos = 1 ∧
      (scan_barline (initLexer ['|'])).2.markedEnd = 1) ∧
    ((scan_barline (initLexer ['|', '|'])).1 = true ∧
      (scan_barline (initLexer ['|', '|'])).2.resultSymbol = some TT_BARLINE ∧
      (scan_barline (initLexer ['|', '|'])).2.pos = 2 ∧
      (scan_barline (initLexer ['|', '|'])).2.markedEnd = 2) ∧
    ((scan_barline (initLexer ['|', ']'])).1 = true ∧
      (scan_barline (initLexer ['|', ']'])).2.resultSymbol = some TT_BARLINE ∧
      (scan_barline (initLexer ['|', ']'])).2.pos = 2) ∧
    ((scan_barline (initLexer ['[', '|'])).1 = true ∧
      (scan_barline (initLexer ['[', '|'])).2.resultSymbol = some TT_BARLINE ∧
      (scan_barline (initLexer ['[', '|'])).2.pos = 2) ∧
    ((scan_barline (initLexer ['|', ':'])).1 = true ∧
      (scan_barline (initLexer ['|', ':'])).2.resultSymbol = some TT_BARLINE ∧
      (scan_barline (initLexer ['|', ':'])).2.pos = 2) ∧
    ((scan_barline (initLexer [':', '|'])).1 = true ∧
      (scan_barline (initLexer [':', '|'])).2.resultSymbol = some TT_BARLINE ∧
      (scan_barline (initLexer [':', '|'])).2.pos = 2) ∧
    ((scan_barline (initLexer [':', ':'])).1 = true ∧
      (scan_barline (initLexer [':', ':'])).2.resultSymbol = some TT_BARLINE ∧
      (scan_barline (initLexer [':', ':'])).2.pos = 2) ∧
    ((scan_barline (initLexer [':', ':', '|'])).1 = true ∧
      (scan_barline (initLexer [':', ':', '|'])).2.resultSymbol = some TT_BARLINE ∧
      (scan_barline (initLexer [':', ':', '|'])).2.pos = 3) ∧
    ((scan_barline (initLexer ['|', '1'])).1 = true ∧
      (scan_barline (initLexer ['|', '1'])).2.resultSymbol = some TT_BARLINE ∧
      (scan_barline (initLexer ['|', '1'])).2.pos = 2) ∧
    ((scan_barline (initLexer ['[', '1'])).1 = true ∧
      (scan_barline (initLexer ['[', '1'])).2.resultSymbol = some TT_BARLINE ∧
      (scan_barline (initLexer ['[', '1'])).2.pos = 2) ∧
    ((scan_barline (initLexer ['[', '|', ':'])).1 = true ∧
      (scan_barline (initLexer ['[', '|', ':'])).2.resultSymbol = some TT_BARLINE ∧
      (scan_barline (initLexer ['[', '|', ':'])).2.pos = 3 ∧
      (scan_barline (initLexer ['[', '|', ':'])).2.markedEnd = 3) ∧
    ((scan_barline (initLexer [':', 'A'])).1 = false ∧
      (scan_barline (initLexer [':', 'A'])).2.pos = 1 ∧
      (scan_barline (initLexer [':', 'A'])).2.resultSymbol = none) ∧
    ((scan_barline (initLexer ['[', 'A'])).1 = false ∧
      (scan_barline (initLexer ['[', 'A'])).2.pos = 1 ∧
      (scan_barline (initLexer ['[', 'A'])).2.resultSymbol = none) := by
  decide

/-- C1: the newline matcher emits a section break over a blank line (two
newline sequences, line counter advanced by 2), emits an EOL over a single
newline (only EOL valid, or next character not a newline; counter advanced by
1), treats each `\r\n` pair as one newline, and treats a bare `\r` not
followed by `\n` as a no-match with exactly one character consumed and the
line counter untouched. The counter is a `uint16_t`, so "advanced by k" is
addition modulo 2^16. -/
theorem scan_section_break_spec (s : ScannerState) (vs : TokenType → Bool) :
    (∀ rest : List Char, vs TT_SCT_BRK = true → vs TT_EOL = true →
      (scan_section_break (initLexer ('\n' :: '\n' :: rest)) s vs).1 = true ∧
      (scan_section_break (initLexer ('\n' :: '\n' :: rest)) s vs).2.1.resultSymbol =
        some TT_SCT_BRK ∧
      (scan_section_break (initLexer ('\n' :: '\n' :: rest)) s vs).2.2.line_number =
        (s.line_number + 2) % 65536 ∧
      (scan_section_break (initLexer ('\n' :: '\n' :: rest)) s vs).2.1.pos = 2) ∧
    (∀ rest : List Char, vs TT_SCT_BRK = false → vs TT_EOL = true →
      (scan_section_break (initLexer ('\n' :: rest)) s vs).1 = true ∧
      (scan_section_break (initLexer ('\n' :: rest)) s vs).2.1.resultSymbol = some TT_EOL ∧
      (scan_section_break (initLexer ('\n' :: rest)) s vs).2.2.line_number =
        (s.line_number + 1) % 65536 ∧
      (scan_section_break (initLexer ('\n' :: rest)) s vs).2.1.pos = 1) ∧
    (∀ (c : Char) (rest : List Char), vs TT_EOL = true → is_line_break c = false →
      (scan_section_break (initLexer ('\n' :: c :: rest)) s vs).1 = true ∧
      (scan_section_break (initLexer ('\n' :: c :: rest)) s vs).2.1.resultSymbol =
        some TT_EOL ∧
      (scan_section_break (initLexer ('\n' :: c :: rest)) s vs).2.2.line_number =
        (s.line_number + 1) % 65536 ∧
      (scan_section_break (initLexer ('\n' :: c :: rest)) s vs).2.1.pos = 1) ∧
    (∀ rest : List Char, vs TT_SCT_BRK = true →
      (scan_section_break (initLexer ('\r' :: '\n' :: '\r' :: '\n' :: rest)) s vs).1 = true ∧
      (scan_section_break (initLexer ('\r' :: '\n' :: '\r' :: '\n' :: rest)) s vs).2.1.resultSymbol =
        some TT_SCT_BRK ∧
      (scan_section_break (initLexer ('\r' :: '\n' :: '\r' :: '\n' :: rest)) s vs).2.2.line_number =
        (s.line_number + 2) % 65536 ∧
      (scan_section_break (initLexer ('\r' :: '\n' :: '\r' :: '\n' :: rest)) s vs).2.1.pos = 4) ∧
    (∀ (c : Char) (rest : List Char), ¬ (c = '\n') →
      (scan_section_break (initLexer ('\r' :: c :: rest)) s vs).1 = false ∧
      (scan_section_break (initLexer ('\r' :: c :: rest)) s vs).2.2 = s ∧
      (scan_section_break (initLexer ('\r' :: c :: rest)) s vs).2.1.pos = 1 ∧
      (scan_section_break (initLexer ('\r' :: c :: rest)) s vs).2.1.resultSymbol = none) ∧
    ((scan_section_break (initLexer ['\r']) s vs).1 = false ∧
      (scan_section_break (initLexer ['\r']) s vs).2.2 = s ∧
      (scan_section_break (initLexer ['\r']) s vs).2.1.pos = 1) := by
  refine ⟨?_, ?_, ?_, ?_, ?_, ?_⟩
  · intro rest h1 h2
    simp [scan_section_break, initLexer, ScannerState.incLine, h1]
  · intro rest h1 h2
    simp [scan_section_break, initLexer, ScannerState.incLine, h1, h2]
  · intro c rest h1 h2
    simp only [is_line_break, decide_eq_false_iff_not, not_or] at h2
    rcases vsb : vs TT_SCT_BRK with _ | _ <;>
      simp [scan_section_break, initLexer, ScannerState.incLine, h1, vsb, h2.1, h2.2]
  · intro rest h1
    simp [scan_section_break, initLexer, ScannerState.incLine, h1]
  · intro c rest h
    simp [scan_section_break, initLexer, h]
  · simp [scan_section_break, initLexer]

/-- Witness for C1: both kinds valid, input a blank line, starting from the
freshly created state. -/
theorem scan_section_break_spec_witness :
    vsBreakEol TT_SCT_BRK = true ∧ vsBreakEol TT_EOL = true ∧
    ((scan_section_break (initLexer ('\n' :: '\n' :: [])) scanner_create vsBreakEol).1 = true ∧
      (scan_section_break (initLexer ('\n' :: '\n' :: [])) scanner_create vsBreakEol).2.1.resultSymbol =
        some TT_SCT_BRK ∧
      (scan_section_break (initLexer ('\n' :: '\n' :: [])) scanner_create vsBreakEol).2.2.line_number =
        (scanner_create.line_number + 2) % 65536 ∧
      (scan_section_break (initLexer ('\n' :: '\n' :: [])) scanner_create vsBreakEol).2.1.pos = 2) :=
  ⟨by decide, by decide,
    (scan_section_break_spec scanner_create vsBreakEol).1 [] (by decide) (by decide)⟩

/-- C3: the tuplet-open-paren matcher unconditionally consumes the `(`; a
following digit completes a `TUPLET_LPAREN` whose end is marked after exactly
the one consumed character; any other following character (or end of input)
is a no-match with the `(` still consumed. -/
theorem scan_tuplet_lparen_spec (c : Char) (rest : List Char) :
    (is_digit c = true →
      (scan_tuplet_lparen (initLexer ('(' :: c :: rest))).1 = true ∧
      (scan_tuplet_lparen (initLexer ('(' :: c :: rest))).2.resultSymbol =
        some TT_TUPLET_LPAREN ∧
      (scan_tuplet_lparen (initLexer ('(' :: c :: rest))).2.pos = 1 ∧
      (scan_tuplet_lparen (initLexer ('(' :: c :: rest))).2.markedEnd = 1 ∧
      (scan_tuplet_lparen (initLexer ('(' :: c :: rest))).2.input = c :: rest) ∧
    (is_digit c = false →
      (scan_tuplet_lparen (initLexer ('(' :: c :: rest))).1 = false ∧
      (scan_tuplet_lparen (initLexer ('(' :: c :: rest))).2.resultSymbol = none ∧
      (scan_tuplet_lparen (initLexer ('(' :: c :: rest))).2.pos = 1 ∧
      (scan_tuplet_lparen (initLexer ('(' :: c :: rest))).2.input = c :: rest) ∧
    ((scan_tuplet_lparen (initLexer ['('])).1 = false ∧
      (scan_tuplet_lparen (initLexer ['('])).2.pos = 1) := by
  refine ⟨?_, ?_, by decide⟩
  · intro h
    simp [scan_tuplet_lparen, initLexer, Lexer.peeksat, h]
  · intro h
    simp [scan_tuplet_lparen, initLexer, Lexer.peeksat, h]

/-- Witness for C3 at a digit and at a letter. -/
theorem scan_tuplet_lparen_spec_witness :
    is_digit '3' = true ∧
    (scan_tuplet_lparen (initLexer ('(' :: '3' :: []))).1 = true ∧
    is_digit 'A' = false ∧
    (scan_tuplet_lparen (initLexer ('(' :: 'A' :: []))).1 = false :=
  ⟨by decide, ((scan_tuplet_lparen_spec '3' []).1 (by decide)).1, by decide,
    ((scan_tuplet_lparen_spec 'A' []).2.1 (by decide)).1⟩

theorem annotLen_no_newline (cs : List Char) : '\n' ∉ cs.take (annotLen cs) := by
  induction cs using annotLen.induct
  case case1 => simp [annotLen]
  case case2 c rest h =>
    have heq : annotLen (c :: rest) = 0 := by unfold annotLen; rw [if_pos h]
    simp [heq]
  case case3 h => simp [annotLen]
  case case4 rest2 h => simp [annotLen]
  case case5 c2 rest2 hc hq ih =>
    have heq : annotLen ('\\' :: c2 :: rest2) = annotLen rest2 + 1 + 1 := by
      simp [annotLen, hc]; omega
    rw [heq, List.take_succ_cons, List.take_succ_cons]
    intro hmem
    rcases List.mem_cons.mp hmem with h1 | hmem2
    · exact absurd h1 (by decide)
    · rcases List.mem_cons.mp hmem2 with h1 | h3
      · exact hc h1.symm
      · exact ih h3
  case case6 c rest h hb ih =>
    have heq : annotLen (c :: rest) = annotLen rest + 1 := by
      rw [annotLen.eq_def]
      dsimp only
      rw [if_neg h, if_neg hb]
      omega
    rw [heq, List.take_succ_cons]
    intro hmem
    rcases List.mem_cons.mp hmem with h1 | h3
    · exact h (Or.inr h1.symm)
    · exact ih h3

/-- C5: the annotation matcher always emits once it sees the opening quote:
a backslash escapes the following character (including a quote) without
terminating the string, and when the closing quote is missing the token still
covers everything consumed, never including a newline. Concretely:
`"text"` consumes 6 characters, `"D\""` consumes 5, and the unterminated
`"x\n` emits with the token ending before the newline; in general, for every
input starting with `"`, the matcher emits `TT_ANNOTATION`, marks the end at
the final position, and the consumed prefix contains no `\n`. -/
theorem scan_annot_spec :
    ((scan_annot (initLexer ['"', 't', 'e', 'x', 't', '"'])).1 = true ∧
      (scan_annot (initLexer ['"', 't', 'e', 'x', 't', '"'])).2.resultSymbol =
        some TT_ANNOTATION ∧
      (scan_annot (initLexer ['"', 't', 'e', 'x', 't', '"'])).2.pos = 6 ∧
      (scan_annot (initLexer ['"', 't', 'e', 'x', 't', '"'])).2.markedEnd = 6) ∧
    ((scan_annot (initLexer ['"', 'D', '\\', '"', '"'])).1 = true ∧
      (scan_annot (initLexer ['"', 'D', '\\', '"', '"'])).2.resultSymbol =
        some TT_ANNOTATION ∧
      (scan_annot (initLexer ['"', 'D', '\\', '"', '"'])).2.pos = 5 ∧
      (scan_annot (initLexer ['"', 'D', '\\', '"', '"'])).2.markedEnd = 5) ∧
    ((scan_annot (initLexer ['"', 'x', '\n'])).1 = true ∧
      (scan_annot (initLexer ['"', 'x', '\n'])).2.resultSymbol = some TT_ANNOTATION ∧
      (scan_annot (initLexer ['"', 'x', '\n'])).2.pos = 2 ∧
      (scan_annot (initLexer ['"', 'x', '\n'])).2.markedEnd = 2 ∧
      (scan_annot (initLexer ['"', 'x', '\n'])).2.input = ['\n']) ∧
    ∀ cs : List Char,
      (scan_annot (initLexer ('"' :: cs))).1 = true ∧
      (scan_annot (initLexer ('"' :: cs))).2.resultSymbol = some TT_ANNOTATION ∧
      (scan_annot (initLexer ('"' :: cs))).2.markedEnd =
        (scan_annot (initLexer ('"' :: cs))).2.pos ∧
      '\n' ∉ ('"' :: cs).take ((scan_annot (initLexer ('"' :: cs))).2.pos) := by
  refine ⟨by decide, by decide, by decide, ?_⟩
  intro cs
  by_cases hq : (cs.drop (annotLen cs)).head? = some '"'
  · have hgetq : cs[annotLen cs]? = some '"' := by rw [← List.head?_drop]; exact hq
    have hcs : '\n' ∉ cs.take (annotLen cs + 1) := by
      rw [List.take_succ, hgetq]
      intro h2
      rcases List.mem_append.mp h2 with h3 | h4
      · exact annotLen_no_newline cs h3
      · simp at h4
    simp [scan_annot, initLexer, hgetq]
    rw [show 1 + annotLen cs = annotLen cs + 1 from by omega]
    exact hcs
  · have hq2 : ¬ (cs[annotLen cs]? = some '"') := by rw [← List.head?_drop]; exact hq
    simp [scan_annot, initLexer, hq2]
    rw [show 1 + annotLen cs = annotLen cs + 1 from by omega, List.take_succ_cons]
    intro hm
    rcases List.mem_cons.mp hm with h1 | h2
    · exact absurd h1 (by decide)
    · exact annotLen_no_newline cs h2

theorem drop_takeWhile_length (p : Char → Bool) (l : List Char) :
    l.drop (l.takeWhile p).length = l.dropWhile p := by
  induction l with
  | nil => rfl
  | cons c t ih =>
    by_cases h : p c <;> simp [List.takeWhile_cons, List.dropWhile_cons, h, ih]

theorem head_dropWhile_not (p : Char → Bool) (l : List Char) (a : Char)
    (h : (l.dropWhile p).head? = some a) : p a = false := by
  induction l with
  | nil => simp at h
  | cons c t ih =>
    by_cases hc : p c
    · rw [List.dropWhile_cons_of_pos hc] at h
      exact ih h
    · rw [List.dropWhile_cons_of_neg hc] at h
      simp at h
      rw [← h]
      simpa using hc

/-- C6 counterexample: the accidental matcher is not maximal munch. On the
run `^^^` (three characters, each of which the accidental matcher accepts on
its own) it consumes only two characters and leaves a matching `^`
unconsumed. -/
theorem scan_accidental_not_maximal :
    (scan_accidental (initLexer ['^', '^', '^'])).1 = true ∧
    (scan_accidental (initLexer ['^', '^', '^'])).2.pos = 2 ∧
    (scan_accidental (initLexer ['^', '^', '^'])).2.input = ['^'] ∧
    (scan_accidental (initLexer ['^'])).1 = true := by
  decide

/-- C6 (amended): maximal munch holds for octave markers, decorations, and
digit runs — each consumes its entire contiguous class run, the remaining
input starts with a non-class character, and the concrete examples of the
spec hold — but the accidental matcher consumes at most two characters of a
run, not the whole run. -/
theorem maximal_munch_spec :
    (∀ (c : Char) (cs : List Char), is_octave_char c = true →
      (scan_octave (initLexer (c :: cs))).1 = true ∧
      (scan_octave (initLexer (c :: cs))).2.resultSymbol = some TT_OCTAVE ∧
      (scan_octave (initLexer (c :: cs))).2.pos =
        ((c :: cs).takeWhile is_octave_char).length ∧
      (scan_octave (initLexer (c :: cs))).2.input = (c :: cs).dropWhile is_octave_char ∧
      ∀ d : Char, ((scan_octave (initLexer (c :: cs))).2.input.head? = some d →
        is_octave_char d = false)) ∧
    (∀ (c : Char) (cs : List Char), is_decoration_char c = true →
      (scan_decoration (initLexer (c :: cs))).1 = true ∧
      (scan_decoration (initLexer (c :: cs))).2.resultSymbol = some TT_DECORATION ∧
      (scan_decoration (initLexer (c :: cs))).2.pos =
        ((c :: cs).takeWhile is_decoration_char).length ∧
      (scan_decoration (initLexer (c :: cs))).2.input =
        (c :: cs).dropWhile is_decoration_char) ∧
    (∀ (c : Char) (cs : List Char), is_digit c = true →
      (scan_number (initLexer (c :: cs))).1 = true ∧
      (scan_number (initLexer (c :: cs))).2.resultSymbol = some TT_RHY_NUMER ∧
      (scan_number (initLexer (c :: cs))).2.pos =
        ((c :: cs).takeWhile is_digit).length ∧
      (scan_number (initLexer (c :: cs))).2.input = (c :: cs).dropWhile is_digit) ∧
    ((scan_octave (initLexer [apos, apos])).1 = true ∧
      (scan_octave (initLexer [apos, apos])).2.pos = 2 ∧
      (scan_decoration (initLexer ['~', '.', 'H'])).1 = true ∧
      (scan_decoration (initLexer ['~', '.', 'H'])).2.pos = 3 ∧
      (scan_decoration (initLexer ['~', '.', 'H'])).2.resultSymbol = some TT_DECORATION ∧
      (scan_octave (initLexer [apos, ','])).1 = true ∧
      (scan_octave (initLexer [apos, ','])).2.pos = 2 ∧
      (scan_octave (initLexer [apos, ','])).2.resultSymbol = some TT_OCTAVE) ∧
    (∀ cs : List Char, (scan_accidental (initLexer cs)).1 = true →
      (scan_accidental (initLexer cs)).2.pos = 1 ∨
      (scan_accidental (initLexer cs)).2.pos = 2) := by
  refine ⟨?_, ?_, ?_, by decide, ?_⟩
  · intro c cs h
    simp [scan_octave, initLexer, Lexer.peeksat, Lexer.advanceWhile, h,
      drop_takeWhile_length]
    intro d hd
    exact head_dropWhile_not _ _ _ hd
  · intro c cs h
    simp [scan_decoration, initLexer, Lexer.peeksat, Lexer.advanceWhile, h,
      drop_takeWhile_length]
  · intro c cs h
    simp [scan_number, initLexer, Lexer.peeksat, Lexer.advanceWhile, h,
      drop_takeWhile_length]
  · intro cs h
    rcases cs with _ | ⟨c, rest⟩
    · simp [scan_accidental, initLexer] at h
    · simp only [scan_accidental, initLexer] at h ⊢
      split_ifs at h ⊢ <;> simp_all

/-- Witness for C6 at the spec's own example inputs. -/
theorem maximal_munch_spec_witness :
    is_octave_char apos = true ∧
    (scan_octave (initLexer (apos :: [apos]))).1 = true ∧
    (scan_accidental (initLexer ['^', '^'])).1 = true ∧
    ((scan_accidental (initLexer ['^', '^'])).2.pos = 1 ∨
      (scan_accidental (initLexer ['^', '^'])).2.pos = 2) :=
  ⟨by decide, (maximal_munch_spec.1 apos [apos] (by decide)).1, by decide,
    maximal_munch_spec.2.2.2.2 ['^', '^'] (by decide)⟩

theorem emits_scan_whitespace : EmitsOnce scan_whitespace := by
  intro l
  simp only [scan_whitespace, EmitsOnce]
  split_ifs <;> simp_all

theorem emits_scan_note_letter : EmitsOnce scan_note_letter := by
  intro l
  simp only [scan_note_letter, EmitsOnce]
  split_ifs <;> simp_all

theorem emits_scan_accidental : EmitsOnce scan_accidental := by
  intro l
  simp only [scan_accidental, EmitsOnce]
  split_ifs <;> simp_all

theorem emits_scan_octave : EmitsOnce scan_octave := by
  intro l
  simp only [scan_octave, EmitsOnce]
  split_ifs <;> simp_all

theorem emits_scan_rest : EmitsOnce scan_rest := by
  intro l
  simp only [scan_rest, EmitsOnce]
  split_ifs <;> simp_all

theorem emits_scan_tie : EmitsOnce scan_tie := by
  intro l
  simp only [scan_tie, EmitsOnce]
  split_ifs <;> simp_all

theorem emits_scan_decoration : EmitsOnce scan_decoration := by
  intro l
  simp only [scan_decoration, EmitsOnce]
  split_ifs <;> simp_all

theorem emits_scan_slur : EmitsOnce scan_slur := by
  intro l
  simp only [scan_slur, EmitsOnce]
  split_ifs <;> simp_all

theorem emits_scan_number : EmitsOnce scan_number := by
  intro l
  simp only [scan_number, EmitsOnce]
  split_ifs <;> simp_all

theorem emits_scan_rhythm_sep : EmitsOnce scan_rhythm_sep := by
  intro l
  simp only [scan_rhythm_sep, EmitsOnce]
  split_ifs <;> simp_all

theorem emits_scan_broken_rhythm : EmitsOnce scan_broken_rhythm := by
  intro l
  simp only [scan_broken_rhythm, EmitsOnce]
  split_ifs <;> simp_all

theorem emits_scan_barline : EmitsOnce scan_barline := by
  intro l
  simp only [scan_barline, EmitsOnce]
  split_ifs <;> simp_all

theorem emits_scan_chord_bracket : EmitsOnce scan_chord_bracket := by
  intro l
  simp only [scan_chord_bracket, EmitsOnce]
  split_ifs <;> simp_all

theorem emits_scan_grace_brace : EmitsOnce scan_grace_brace := by
  intro l
  simp only [scan_grace_brace, EmitsOnce]
  split_ifs <;> simp_all

theorem emits_scan_annot : EmitsOnce scan_annot := by
  intro l
  simp only [scan_annot, EmitsOnce]
  split_ifs <;> simp_all

theorem emits_scan_symbol : EmitsOnce scan_symbol := by
  intro l
  simp only [scan_symbol, EmitsOnce]
  split_ifs <;> simp_all

theorem emits_scan_system_break : EmitsOnce scan_system_break := by
  intro l
  simp only [scan_system_break, EmitsOnce]
  split_ifs <;> simp_all

theorem emits_scan_y_spacer : EmitsOnce scan_y_spacer := by
  intro l
  simp only [scan_y_spacer, EmitsOnce]
  split_ifs <;> simp_all

theorem emits_scan_backtick_spacer : EmitsOnce scan_backtick_spacer := by
  intro l
  simp only [scan_backtick_spacer, EmitsOnce]
  split_ifs <;> simp_all

theorem emits_scan_line_continuation : EmitsOnce scan_line_continuation := by
  intro l
  simp only [scan_line_continuation, EmitsOnce]
  split_ifs <;> simp_all

theorem emits_scan_general_number : EmitsOnce scan_general_number := by
  intro l
  simp only [scan_general_number, EmitsOnce]
  split_ifs <;> simp_all

theorem emits_scan_rhythm_denom : EmitsOnce scan_rhythm_denom := by
  intro l
  simp only [scan_rhythm_denom, EmitsOnce]
  split_ifs <;> simp_all

theorem emits_scan_tuplet_lparen : EmitsOnce scan_tuplet_lparen := by
  intro l
  simp only [scan_tuplet_lparen, EmitsOnce]
  split_ifs <;> simp_all

theorem emits_scan_tuplet_colon : EmitsOnce scan_tuplet_colon := by
  intro l
  simp only [scan_tuplet_colon, EmitsOnce]
  split_ifs <;> simp_all

theorem emits_scan_inline_field_left : EmitsOnce scan_inline_field_left := by
  intro l
  simp only [scan_inline_field_left, EmitsOnce]
  split_ifs <;> simp_all

theorem emits_scan_inline_field_right : EmitsOnce scan_inline_field_right := by
  intro l
  simp only [scan_inline_field_right, EmitsOnce]
  split_ifs <;> simp_all

theorem emits_scan_grace_slash : EmitsOnce scan_grace_slash := by
  intro l
  simp only [scan_grace_slash, EmitsOnce]
  split_ifs <;> simp_all

theorem emits_scan_equals : EmitsOnce scan_equals := by
  intro l
  simp only [scan_equals, EmitsOnce]
  split_ifs <;> simp_all

theorem emits_scan_slash : EmitsOnce scan_slash := by
  intro l
  simp only [scan_slash, EmitsOnce]
  split_ifs <;> simp_all

theorem emits_scan_minus : EmitsOnce scan_minus := by
  intro l
  simp only [scan_minus, EmitsOnce]
  split_ifs <;> simp_all

theorem emits_scan_plus : EmitsOnce scan_plus := by
  intro l
  simp only [scan_plus, EmitsOnce]
  split_ifs <;> simp_all

theorem emits_scan_lparen : EmitsOnce scan_lparen := by
  intro l
  simp only [scan_lparen, EmitsOnce]
  split_ifs <;> simp_all

theorem emits_scan_rparen : EmitsOnce scan_rparen := by
  intro l
  simp only [scan_rparen, EmitsOnce]
  split_ifs <;> simp_all

theorem emits_scan_lbrace : EmitsOnce scan_lbrace := by
  intro l
  simp only [scan_lbrace, EmitsOnce]
  split_ifs <;> simp_all

theorem emits_scan_rbrace : EmitsOnce scan_rbrace := by
  intro l
  simp only [scan_rbrace, EmitsOnce]
  split_ifs <;> simp_all

theorem emits_scan_lbracket : EmitsOnce scan_lbracket := by
  intro l
  simp only [scan_lbracket, EmitsOnce]
  split_ifs <;> simp_all

theorem emits_scan_rbracket : EmitsOnce scan_rbracket := by
  intro l
  simp only [scan_rbracket, EmitsOnce]
  split_ifs <;> simp_all

theorem emits_scan_pipe : EmitsOnce scan_pipe := by
  intro l
  simp only [scan_pipe, EmitsOnce]
  split_ifs <;> simp_all

theorem emits_scan_identifier : EmitsOnce scan_identifier := by
  intro l
  simp only [scan_identifier, EmitsOnce]
  split_ifs <;> simp_all

theorem emits_scan_info_string : EmitsOnce scan_info_string := by
  intro l
  simp only [scan_info_string, EmitsOnce]
  split_ifs <;> simp_all

theorem emits_scan_escaped_char : EmitsOnce scan_escaped_char := by
  intro l
  simp only [scan_escaped_char, EmitsOnce]
  split_ifs <;> simp_all

theorem emits_scan_chord_symbol : EmitsOnce scan_chord_symbol := by
  intro l
  simp only [scan_chord_symbol, EmitsOnce]
  split_ifs <;> simp_all

theorem emits_scan_lyric_tilde : EmitsOnce scan_lyric_tilde := by
  intro l
  simp only [scan_lyric_tilde, EmitsOnce]
  split_ifs <;> simp_all

theorem emits_scan_lyric_text : EmitsOnce scan_lyric_text := by
  intro l
  simp only [scan_lyric_text, EmitsOnce]
  split_ifs <;> simp_all

theorem emits_scan_lyric_underscore : EmitsOnce scan_lyric_underscore := by
  intro l
  simp only [scan_lyric_underscore, EmitsOnce]
  split_ifs <;> simp_all

theorem emits_scan_lyric_hyphen : EmitsOnce scan_lyric_hyphen := by
  intro l
  simp only [scan_lyric_hyphen, EmitsOnce]
  split_ifs <;> simp_all

theorem emits_scan_lyric_star : EmitsOnce scan_lyric_star := by
  intro l
  simp only [scan_lyric_star, EmitsOnce]
  split_ifs <;> simp_all

theorem emits_scan_symbol_header : EmitsOnce scan_symbol_header := by
  intro l
  simp only [scan_symbol_header, EmitsOnce]
  split_ifs <;> simp_all

theorem emits_scan_symbol_star : EmitsOnce scan_symbol_star := by
  intro l
  simp only [scan_symbol_star, EmitsOnce]
  split_ifs <;> simp_all

theorem emits_scan_symbol_text : EmitsOnce scan_symbol_text := by
  intro l
  simp only [scan_symbol_text, EmitsOnce]
  split_ifs <;> simp_all

theorem emits_scan_tuplet_p : EmitsOnce scan_tuplet_p := by
  intro l
  simp only [scan_tuplet_p, EmitsOnce]
  split_ifs <;> simp_all

theorem emits_scan_tuplet_q : EmitsOnce scan_tuplet_q := by
  intro l
  simp only [scan_tuplet_q, EmitsOnce]
  split_ifs <;> simp_all

theorem emits_scan_tuplet_r : EmitsOnce scan_tuplet_r := by
  intro l
  simp only [scan_tuplet_r, EmitsOnce]
  split_ifs <;> simp_all

theorem emits_scan_repeat_number : EmitsOnce scan_repeat_number := by
  intro l
  simp only [scan_repeat_number, EmitsOnce]
  split_ifs <;> simp_all

theorem emits_scan_repeat_comma : EmitsOnce scan_repeat_comma := by
  intro l
  simp only [scan_repeat_comma, EmitsOnce]
  split_ifs <;> simp_all

theorem emits_scan_repeat_dash : EmitsOnce scan_repeat_dash := by
  intro l
  simp only [scan_repeat_dash, EmitsOnce]
  split_ifs <;> simp_all

theorem emits_scan_repeat_x : EmitsOnce scan_repeat_x := by
  intro l
  simp only [scan_repeat_x, EmitsOnce]
  split_ifs <;> simp_all

theorem emits_scan_info_continuation : EmitsOnce scan_info_continuation := by
  intro l
  simp only [scan_info_continuation, EmitsOnce]
  split_ifs <;> simp_all

theorem emits_scan_voice : EmitsOnce scan_voice := by
  intro l
  simp only [scan_voice, EmitsOnce]
  split_ifs <;> simp_all

theorem emits_scan_user_symbol_header : EmitsOnce scan_user_symbol_header := by
  intro l
  simp only [scan_user_symbol_header, EmitsOnce]
  split_ifs <;> simp_all

theorem emits_scan_user_symbol : EmitsOnce scan_user_symbol := by
  intro l
  simp only [scan_user_symbol, EmitsOnce]
  split_ifs <;> simp_all

theorem emits_scan_user_symbol_invocation : EmitsOnce scan_user_symbol_invocation := by
  intro l
  simp only [scan_user_symbol_invocation, EmitsOnce]
  split_ifs <;> simp_all

theorem emits_scan_macro_header : EmitsOnce scan_macro_header := by
  intro l
  simp only [scan_macro_header, EmitsOnce]
  split_ifs <;> simp_all

theorem emits_scan_macro_var : EmitsOnce scan_macro_var := by
  intro l
  simp only [scan_macro_var, EmitsOnce]
  split_ifs <;> simp_all

theorem emits_scan_macro_string : EmitsOnce scan_macro_string := by
  intro l
  simp only [scan_macro_string, EmitsOnce]
  split_ifs <;> simp_all

theorem emits_scan_macro_invocation : EmitsOnce scan_macro_invocation := by
  intro l
  simp only [scan_macro_invocation, EmitsOnce]
  split_ifs <;> simp_all

theorem emits_scan_special_literal : EmitsOnce scan_special_literal := by
  intro l
  simp only [scan_special_literal, EmitsOnce]
  split_ifs <;> simp_all

theorem emits_scan_measurement_unit : EmitsOnce scan_measurement_unit := by
  intro l
  simp only [scan_measurement_unit, EmitsOnce]
  split_ifs <;> simp_all

theorem emits_scan_reserved_char : EmitsOnce scan_reserved_char := by
  intro l
  simp only [scan_reserved_char, EmitsOnce]
  split_ifs <;> simp_all

theorem emits_scan_free_text : EmitsOnce scan_free_text := by
  intro l
  simp only [scan_free_text, EmitsOnce]
  split_ifs <;> simp_all

theorem emits_scan_invalid : EmitsOnce scan_invalid := by
  intro l
  simp only [scan_invalid, EmitsOnce]
  split_ifs <;> simp_all

theorem emits_scan_percent_token (vs : TokenType → Bool) : EmitsOnce (scan_percent_token vs) := by
  intro l
  simp only [scan_percent_token, EmitsOnce]
  split_ifs <;> simp_all

theorem emits_scan_info_header (vs : TokenType → Bool) : EmitsOnce (scan_info_header vs) := by
  intro l
  simp only [scan_info_header, EmitsOnce]
  split_ifs <;> simp_all

theorem emits_scan_ampersand (vs : TokenType → Bool) : EmitsOnce (scan_ampersand vs) := by
  intro l
  simp only [scan_ampersand, EmitsOnce]
  split_ifs <;> simp_all

theorem emits_scan_lyric_header (vs : TokenType → Bool) : EmitsOnce (scan_lyric_header vs) := by
  intro l
  simp only [scan_lyric_header, EmitsOnce]
  split_ifs <;> simp_all

theorem emits_attempt (cond : Lexer → Bool) (f k : Lexer → Bool × Lexer)
    (hf : EmitsOnce f) (hk : EmitsOnce k) : EmitsOnce (attempt cond f k) := by
  intro l
  unfold attempt
  split
  · have h2 := hf l
    rcases hfl : f l with ⟨b, l1⟩
    rw [hfl] at h2
    cases b
    · have h3 := hk l1
      simp only [hfl]
      simp at h2
      simp [h2] at h3
      simpa using h3
    · simp only [hfl]
      simpa using h2
  · exact hk l

theorem emits_scanRest (vs : TokenType → Bool) : EmitsOnce (scanRest vs) := by
  unfold scanRest
  refine emits_attempt _ _ _ (emits_scan_percent_token vs) ?_
  refine emits_attempt _ _ _ (emits_scan_whitespace) ?_
  refine emits_attempt _ _ _ (emits_scan_line_continuation) ?_
  refine emits_attempt _ _ _ (emits_scan_escaped_char) ?_
  refine emits_attempt _ _ _ (emits_scan_chord_symbol) ?_
  refine emits_attempt _ _ _ (emits_scan_annot) ?_
  refine emits_attempt _ _ _ (emits_scan_symbol) ?_
  refine emits_attempt _ _ _ (emits_scan_system_break) ?_
  refine emits_attempt _ _ _ (emits_scan_backtick_spacer) ?_
  refine emits_attempt _ _ _ (emits_scan_barline) ?_
  refine emits_attempt _ _ _ (emits_scan_tuplet_lparen) ?_
  refine emits_attempt _ _ _ (emits_scan_tuplet_colon) ?_
  refine emits_attempt _ _ _ (emits_scan_accidental) ?_
  refine emits_attempt _ _ _ (emits_scan_y_spacer) ?_
  refine emits_attempt _ _ _ (emits_scan_note_letter) ?_
  refine emits_attempt _ _ _ (emits_scan_octave) ?_
  refine emits_attempt _ _ _ (emits_scan_rest) ?_
  refine emits_attempt _ _ _ (emits_scan_tie) ?_
  refine emits_attempt _ _ _ (emits_scan_decoration) ?_
  refine emits_attempt _ _ _ (emits_scan_slur) ?_
  refine emits_attempt _ _ _ (emits_scan_grace_brace) ?_
  refine emits_attempt _ _ _ (emits_scan_grace_brace) ?_
  refine emits_attempt _ _ _ (emits_scan_grace_slash) ?_
  refine emits_attempt _ _ _ (emits_scan_inline_field_left) ?_
  refine emits_attempt _ _ _ (emits_scan_inline_field_right) ?_
  refine emits_attempt _ _ _ (emits_scan_chord_bracket) ?_
  refine emits_attempt _ _ _ (emits_scan_chord_bracket) ?_
  refine emits_attempt _ _ _ (emits_scan_number) ?_
  refine emits_attempt _ _ _ (emits_scan_rhythm_denom) ?_
  refine emits_attempt _ _ _ (emits_scan_rhythm_sep) ?_
  refine emits_attempt _ _ _ (emits_scan_broken_rhythm) ?_
  refine emits_attempt _ _ _ (emits_scan_lyric_header vs) ?_
  refine emits_attempt _ _ _ (emits_scan_lyric_underscore) ?_
  refine emits_attempt _ _ _ (emits_scan_lyric_hyphen) ?_
  refine emits_attempt _ _ _ (emits_scan_lyric_star) ?_
  refine emits_attempt _ _ _ (emits_scan_lyric_tilde) ?_
  refine emits_attempt _ _ _ (emits_scan_lyric_text) ?_
  refine emits_attempt _ _ _ (emits_scan_symbol_header) ?_
  refine emits_attempt _ _ _ (emits_scan_symbol_star) ?_
  refine emits_attempt _ _ _ (emits_scan_symbol_text) ?_
  refine emits_attempt _ _ _ (emits_scan_tuplet_p) ?_
  refine emits_attempt _ _ _ (emits_scan_tuplet_q) ?_
  refine emits_attempt _ _ _ (emits_scan_tuplet_r) ?_
  refine emits_attempt _ _ _ (emits_scan_repeat_number) ?_
  refine emits_attempt _ _ _ (emits_scan_repeat_comma) ?_
  refine emits_attempt _ _ _ (emits_scan_repeat_dash) ?_
  refine emits_attempt _ _ _ (emits_scan_repeat_x) ?_
  refine emits_attempt _ _ _ (emits_scan_info_continuation) ?_
  refine emits_attempt _ _ _ (emits_scan_user_symbol_header) ?_
  refine emits_attempt _ _ _ (emits_scan_user_symbol) ?_
  refine emits_attempt _ _ _ (emits_scan_user_symbol_invocation) ?_
  refine emits_attempt _ _ _ (emits_scan_macro_header) ?_
  refine emits_attempt _ _ _ (emits_scan_macro_var) ?_
  refine emits_attempt _ _ _ (emits_scan_macro_string) ?_
  refine emits_attempt _ _ _ (emits_scan_macro_invocation) ?_
  refine emits_attempt _ _ _ (emits_scan_special_literal) ?_
  refine emits_attempt _ _ _ (emits_scan_info_header vs) ?_
  refine emits_attempt _ _ _ (emits_scan_info_string) ?_
  refine emits_attempt _ _ _ (emits_scan_equals) ?_
  refine emits_attempt _ _ _ (emits_scan_slash) ?_
  refine emits_attempt _ _ _ (emits_scan_minus) ?_
  refine emits_attempt _ _ _ (emits_scan_plus) ?_
  refine emits_attempt _ _ _ (emits_scan_lparen) ?_
  refine emits_attempt _ _ _ (emits_scan_rparen) ?_
  refine emits_attempt _ _ _ (emits_scan_lbrace) ?_
  refine emits_attempt _ _ _ (emits_scan_rbrace) ?_
  refine emits_attempt _ _ _ (emits_scan_lbracket) ?_
  refine emits_attempt _ _ _ (emits_scan_rbracket) ?_
  refine emits_attempt _ _ _ (emits_scan_pipe) ?_
  refine emits_attempt _ _ _ (emits_scan_general_number) ?_
  refine emits_attempt _ _ _ (emits_scan_measurement_unit) ?_
  refine emits_attempt _ _ _ (emits_scan_voice) ?_
  refine emits_attempt _ _ _ (emits_scan_ampersand vs) ?_
  refine emits_attempt _ _ _ (emits_scan_reserved_char) ?_
  refine emits_attempt _ _ _ (emits_scan_identifier) ?_
  refine emits_attempt _ _ _ (emits_scan_free_text) ?_
  refine emits_attempt _ _ _ (emits_scan_invalid) ?_
  intro l
  simp

theorem emits_scan_section_break (l : Lexer) (s : ScannerState) (vs : TokenType → Bool) :
    (scan_section_break l s vs).2.1.emits =
      l.emits + (if (scan_section_break l s vs).1 then 1 else 0) := by
  simp only [scan_section_break]
  split_ifs <;> simp_all

/-- C8 counterexample: a successful section-break match (input a blank line,
both newline kinds valid) invokes `mark_end` twice within one dispatcher
call, refuting "mark-end is invoked at most once per successful match". -/
theorem markEnd_twice_on_section_break :
    (scanner_scan scanner_create vsBreakEol (initLexer ['\n', '\n'])).1 = true ∧
    (scanner_scan scanner_create vsBreakEol (initLexer ['\n', '\n'])).2.1.resultSymbol =
      some TT_SCT_BRK ∧
    (scanner_scan scanner_create vsBreakEol (initLexer ['\n', '\n'])).2.1.markEndCalls = 2 := by
  decide

/-- C8 (amended): at most one token is committed per dispatcher call — the
emit counter rises by exactly one on a successful call and not at all on a
failed one — but `mark_end` may be invoked more than once on a successful
match (twice for a section break or an info header). -/
theorem scan_commits_at_most_once (s : ScannerState) (vs : TokenType → Bool) (l : Lexer) :
    (scanner_scan s vs l).2.1.emits =
      l.emits + (if (scanner_scan s vs l).1 then 1 else 0) := by
  unfold scanner_scan
  split
  · split <;> simp
  · have hsb := emits_scan_section_break l s vs
    rcases hval : (if vs TT_SCT_BRK || vs TT_EOL then scan_section_break l s vs
        else (false, l, s)) with ⟨b, l1, s1⟩
    have h1 : l1.emits = l.emits + (if b then 1 else 0) := by
      by_cases hv : vs TT_SCT_BRK || vs TT_EOL
      · rw [if_pos hv] at hval
        rw [hval] at hsb
        simpa using hsb
      · rw [if_neg hv] at hval
        cases hval
        simp
    cases b
    · have h2 := emits_scanRest vs l1
      simp only [hval]
      simp at h1
      simp [h2, h1]
    · simp only [hval]
      simpa using h1

/-- C7 counterexample: with only the recovery kind valid on input `@#` —
two consecutive characters, neither of which is a whitespace, newline, or
barline character — the fallback emits `TT_INVALID` after consuming exactly
one character, leaving the second non-synchronization character unconsumed
(consuming "up to the next synchronization character" would take both). -/
theorem scan_invalid_one_char :
    (scanner_scan scanner_create vsInvalidOnly (initLexer ['@', '#'])).1 = true ∧
    (scanner_scan scanner_create vsInvalidOnly (initLexer ['@', '#'])).2.1.resultSymbol =
      some TT_INVALID ∧
    (scanner_scan scanner_create vsInvalidOnly (initLexer ['@', '#'])).2.1.pos = 1 ∧
    (scanner_scan scanner_create vsInvalidOnly (initLexer ['@', '#'])).2.1.input = ['#'] ∧
    is_ws_char '#' = false ∧ is_line_break '#' = false ∧ ('#' = '|') = False := by
  decide

/-- C7 (amended): when every other kind is invalid and `TT_INVALID` is valid,
the dispatcher falls through to the recovery matcher, which emits
`TT_INVALID` after consuming exactly one character (whatever it is); with no
valid kinds at all, the dispatcher returns no token and leaves both cursor
and state untouched. -/
theorem scan_invalid_recovery (s : ScannerState) (c : Char) (cs : List Char) (l : Lexer) :
    ((scanner_scan s vsInvalidOnly (initLexer (c :: cs))).1 = true ∧
      (scanner_scan s vsInvalidOnly (initLexer (c :: cs))).2.1.resultSymbol =
        some TT_INVALID ∧
      (scanner_scan s vsInvalidOnly (initLexer (c :: cs))).2.1.pos = 1 ∧
      (scanner_scan s vsInvalidOnly (initLexer (c :: cs))).2.1.input = cs) ∧
    ((scanner_scan s vsNone l).1 = false ∧ (scanner_scan s vsNone l).2.1 = l ∧
      (scanner_scan s vsNone l).2.2 = s) := by
  constructor
  · simp [scanner_scan, scanRest, attempt, vsInvalidOnly, scan_invalid, initLexer,
      Lexer.atEnd]
  · by_cases he : l.atEnd
    · simp [scanner_scan, vsNone, he]
    · simp [scanner_scan, scanRest, attempt, vsNone, he]

theorem section_break_flags (l : Lexer) (s : ScannerState) (vs : TokenType → Bool) :
    (scan_section_break l s vs).2.2.in_tune_body = s.in_tune_body ∧
    (scan_section_break l s vs).2.2.in_text_block = s.in_text_block := by
  simp only [scan_section_break]
  split_ifs <;> simp [ScannerState.incLine]

theorem mem_take_head (a : Char) (l : List Char) (n : Nat) (h : 1 ≤ n) :
    a ∈ (a :: l).take n := by
  cases n with
  | zero => omega
  | succ m => simp [List.take_succ_cons]

theorem mem_take_second (a b : Char) (l : List Char) (n : Nat) (h : 2 ≤ n) :
    b ∈ (a :: b :: l).take n := by
  match n, h with
  | m + 2, _ => simp [List.take_succ_cons]

set_option maxHeartbeats 1000000 in
theorem section_break_newline (l : Lexer) (s : ScannerState) (vs : TokenType → Bool)
    (h : (scan_section_break l s vs).2.2.line_number ≠ s.line_number) :
    '\n' ∈ l.input.take ((scan_section_break l s vs).2.1.pos - l.pos) := by
  rcases hi : l.input with _ | ⟨c1, t1⟩
  · simp [scan_section_break, hi] at h
  · by_cases hc1 : c1 = '\n'
    · subst hc1
      simp only [scan_section_break, hi, List.head?_cons] at h ⊢
      split_ifs at h ⊢ <;> try simp_all
      all_goals exact mem_take_head _ _ _ (by omega)
    · by_cases hc2 : c1 = '\r'
      · subst hc2
        rcases ht1 : t1 with _ | ⟨c2, t2⟩
        · simp [scan_section_break, hi, ht1] at h
        · by_cases hc2n : c2 = '\n'
          · subst hc2n
            simp only [scan_section_break, hi, ht1, List.head?_cons] at h ⊢
            split_ifs at h ⊢ <;> try simp_all
            all_goals exact mem_take_second _ _ _ _ (by omega)
          · simp [scan_section_break, hi, ht1, hc2n] at h
      · simp [scan_section_break, hi, hc1, hc2] at h

/-- C10: a scan call never changes `in_tune_body` or `in_text_block`; the
resulting state is exactly the state produced by the newline matcher when
that matcher was attempted, and the unchanged input state otherwise; and
whenever `line_number` changed, a newline kind was valid and the newline
matcher consumed an actual `\n` character. -/
theorem scan_state_frame (s : ScannerState) (vs : TokenType → Bool) (l : Lexer) :
    (scanner_scan s vs l).2.2.in_tune_body = s.in_tune_body ∧
    (scanner_scan s vs l).2.2.in_text_block = s.in_text_block ∧
    (scanner_scan s vs l).2.2 =
      (if (vs TT_SCT_BRK || vs TT_EOL) && !l.atEnd then (scan_section_break l s vs).2.2
       else s) ∧
    ((scanner_scan s vs l).2.2.line_number ≠ s.line_number →
      ((vs TT_SCT_BRK = true ∨ vs TT_EOL = true) ∧
        '\n' ∈ l.input.take ((scan_section_break l s vs).2.1.pos - l.pos))) := by
  have hstate : (scanner_scan s vs l).2.2 =
      (if (vs TT_SCT_BRK || vs TT_EOL) && !l.atEnd then (scan_section_break l s vs).2.2
       else s) := by
    unfold scanner_scan
    by_cases he : l.atEnd
    · simp only [he, if_true, Bool.not_true, Bool.and_false, if_false]
      split <;> simp
    · simp only [he, if_false, Bool.not_false, Bool.and_true]
      by_cases hv : vs TT_SCT_BRK || vs TT_EOL
      · simp only [hv, if_true]
        rcases hr : scan_section_break l s vs with ⟨b, l1, s1⟩
        cases b <;> simp
      · simp only [hv, if_false]
        simp
  refine ⟨?_, ?_, hstate, ?_⟩
  · rw [hstate]
    split
    · exact (section_break_flags l s vs).1
    · rfl
  · rw [hstate]
    split
    · exact (section_break_flags l s vs).2
    · rfl
  · intro h
    rw [hstate] at h
    by_cases hc : ((vs TT_SCT_BRK || vs TT_EOL) && !l.atEnd) = true
    · rw [if_pos hc] at h
      have hv : vs TT_SCT_BRK = true ∨ vs TT_EOL = true := by
        simp only [Bool.and_eq_true, Bool.or_eq_true] at hc
        exact hc.1
      exact ⟨hv, section_break_newline l s vs h⟩
    · rw [if_neg hc] at h
      exact absurd rfl h

/-- Witness for C10: a single newline with only `TT_EOL` valid changes the
line number, and the theorem's conclusion holds there. -/
theorem scan_state_frame_witness :
    (scanner_scan scanner_create vsEolOnly (initLexer ['\n'])).2.2.line_number ≠
      scanner_create.line_number ∧
    ((vsEolOnly TT_SCT_BRK = true ∨ vsEolOnly TT_EOL = true) ∧
      '\n' ∈ (initLexer ['\n']).input.take
        ((scan_section_break (initLexer ['\n']) scanner_create vsEolOnly).2.1.pos -
          (initLexer ['\n']).pos)) :=
  ⟨by decide, (scan_state_frame scanner_create vsEolOnly (initLexer ['\n'])).2.2.2 (by decide)⟩
